import Mathlib

/-!
# LT8491 IIO driver (drivers/power/lt8491/iio_lt8491.c)

A shallow embedding of the attribute dispatch (`lt8491_ch_attr_show`,
`lt8491_ch_attr_store`), the attribute table `lt8491_iio_attrs` and the
bring-up routine `lt8491_iio_init`.

The chip driver (`lt8491_*`), the allocator (`no_os_calloc`, `no_os_free`) and
the IIO value codec (`iio_parse_value`, `iio_format_value`) are external to the
file: they are fields of `Env`, arbitrary functions over an external state `σ`.
Every call the driver makes to one of them is appended, with its arguments, to
a list of `Call`s, so that "which accessor was called, how often, in which
order, with what" is a statement about that list.

Machine integers: `int`, `int32_t` are `Int`, `uint32_t` is `Nat`; a store into
a 32-bit cell goes through `to_int32` / `to_uint32`.
-/

namespace LT8491

/-! ## errno.h -/

/-- The value of `EINVAL` in errno.h. -/
def EINVAL : Int := 22

/-- The value of `ENOMEM` in errno.h. -/
def ENOMEM : Int := 12

/-- The value of `EOPNOTSUPP` in errno.h. -/
def EOPNOTSUPP : Int := 95

/-! ## 32-bit cells -/

/-- Conversion of an integer to `uint32_t`: reduction modulo `2^32`. -/
def to_uint32 (x : Int) : Nat := (x % 2 ^ 32).toNat

/-- Conversion of an integer to `int32_t`: the two's-complement wrap. -/
def to_int32 (x : Int) : Int := (x + 2 ^ 31) % 2 ^ 32 - 2 ^ 31

/-! ## Types of the IIO layer -/

/-- The members of `enum iio_val` this driver passes to the codec. -/
inductive iio_val where
  | IIO_VAL_INT
  | IIO_VAL_CHAR
  | IIO_VAL_INT_MULTIPLE
  deriving DecidableEq

/-- The functions of this file that are stored in tables as function pointers. -/
inductive Handler where
  | lt8491_ch_attr_show
  | lt8491_ch_attr_store
  | lt8491_iio_reg_read
  | lt8491_iio_reg_write
  deriving DecidableEq

/-- A `struct iio_attribute`: `show_` and `store` are function pointers, `none` is `NULL`. -/
structure iio_attribute where
  name : String
  priv : Int
  show_ : Option Handler
  store : Option Handler
  deriving DecidableEq

/-- A `struct iio_device`, with the members `lt8491_iio_dev` sets. -/
structure iio_device where
  debug_reg_read : Option Handler
  debug_reg_write : Option Handler
  attributes : List iio_attribute
  deriving DecidableEq

/-- A `struct lt8491_iio_device`: the chip descriptor and the IIO device. -/
structure lt8491_iio_device (D : Type) where
  dev : D
  iio_dev : Option iio_device
  deriving DecidableEq

/-- A `struct lt8491_iio_init_param`: `init_param` is a pointer, `none` is `NULL`. -/
structure lt8491_iio_init_param (P : Type) where
  init_param : Option P
  deriving DecidableEq

/-! ## enum lt8491_attr_priv -/

/-- The `enum lt8491_attr_priv`. -/
inductive lt8491_attr_priv where
  | LT8491_TBAT
  | LT8491_POUT
  | LT8491_PIN
  | LT8491_EFF
  | LT8491_IOUT
  | LT8491_IIN
  | LT8491_VBAT
  | LT8491_VIN
  | LT8491_CHARGING_STAGE
  | LT8491_CHARGING_STATUS
  | LT8491_ENABLE
  | LT8491_RESTART
  | LT8491_SCRATCH
  | LT8491_SERIAL_ID
  deriving DecidableEq

open lt8491_attr_priv

/-- The integer value of an enumerator (C numbers them from 0). -/
def lt8491_attr_priv.toInt : lt8491_attr_priv → Int
  | LT8491_TBAT => 0
  | LT8491_POUT => 1
  | LT8491_PIN => 2
  | LT8491_EFF => 3
  | LT8491_IOUT => 4
  | LT8491_IIN => 5
  | LT8491_VBAT => 6
  | LT8491_VIN => 7
  | LT8491_CHARGING_STAGE => 8
  | LT8491_CHARGING_STATUS => 9
  | LT8491_ENABLE => 10
  | LT8491_RESTART => 11
  | LT8491_SCRATCH => 12
  | LT8491_SERIAL_ID => 13

/-- The enumerator a `switch (priv)` selects; `none` is the `default:` label. -/
def lt8491_attr_priv.ofInt (priv : Int) : Option lt8491_attr_priv :=
  if priv = 0 then some LT8491_TBAT
  else if priv = 1 then some LT8491_POUT
  else if priv = 2 then some LT8491_PIN
  else if priv = 3 then some LT8491_EFF
  else if priv = 4 then some LT8491_IOUT
  else if priv = 5 then some LT8491_IIN
  else if priv = 6 then some LT8491_VBAT
  else if priv = 7 then some LT8491_VIN
  else if priv = 8 then some LT8491_CHARGING_STAGE
  else if priv = 9 then some LT8491_CHARGING_STATUS
  else if priv = 10 then some LT8491_ENABLE
  else if priv = 11 then some LT8491_RESTART
  else if priv = 12 then some LT8491_SCRATCH
  else if priv = 13 then some LT8491_SERIAL_ID
  else none

/-! ## External collaborators and the record of calls to them -/

/-- One call to an external function, with the arguments passed. -/
inductive Call (P D : Type) where
  | no_os_calloc
  | no_os_free (ptr : Nat)
  | lt8491_init (init_param : P)
  | lt8491_remove (dev : D)
  | lt8491_restart_chip (dev : D)
  | lt8491_write_enable (dev : D) (val : Nat)
  | lt8491_configure_telemetry (dev : D) (init_param : P)
  | lt8491_write_scratch (dev : D) (val : Nat)
  | lt8491_read_tbat (dev : D)
  | lt8491_read_pout (dev : D)
  | lt8491_read_pin (dev : D)
  | lt8491_read_efficiency (dev : D)
  | lt8491_read_iout (dev : D)
  | lt8491_read_iin (dev : D)
  | lt8491_read_vbat (dev : D)
  | lt8491_read_vin (dev : D)
  | lt8491_read_charging_stage (dev : D)
  | lt8491_read_charging_status (dev : D)
  | lt8491_read_enable (dev : D)
  | lt8491_read_scratch (dev : D)
  | lt8491_read_serial_id (dev : D)
  | iio_parse_value (buf : String) (fmt : iio_val)
  | iio_format_value (len : Nat) (fmt : iio_val) (size : Nat) (vals : List Int)
  deriving DecidableEq

/-- The external functions the driver calls. `σ` is the state they act on, `P` the
chip's init parameters, `D` the chip descriptor. An accessor returns its `int`
result first; a read accessor then the value it leaves in the output cell. -/
structure Env (σ P D : Type) where
  no_os_calloc : σ → Option Nat × σ
  no_os_free : Nat → σ → σ
  lt8491_init : P → σ → Int × D × σ
  lt8491_remove : D → σ → Int × σ
  lt8491_restart_chip : D → σ → Int × σ
  lt8491_write_enable : D → Nat → σ → Int × σ
  lt8491_configure_telemetry : D → P → σ → Int × σ
  lt8491_write_scratch : D → Nat → σ → Int × σ
  lt8491_read_tbat : D → σ → Int × Int × σ
  lt8491_read_pout : D → σ → Int × Nat × σ
  lt8491_read_pin : D → σ → Int × Nat × σ
  lt8491_read_efficiency : D → σ → Int × Nat × σ
  lt8491_read_iout : D → σ → Int × Nat × σ
  lt8491_read_iin : D → σ → Int × Nat × σ
  lt8491_read_vbat : D → σ → Int × Nat × σ
  lt8491_read_vin : D → σ → Int × Nat × σ
  lt8491_read_charging_stage : D → σ → Int × Int × σ
  lt8491_read_charging_status : D → σ → Int × Nat × σ
  lt8491_read_enable : D → σ → Int × Nat × σ
  lt8491_read_scratch : D → σ → Int × Nat × σ
  lt8491_read_serial_id : D → σ → Int × (Nat × Nat × Nat) × σ
  iio_parse_value : String → iio_val → Int × Int
  iio_format_value : Nat → iio_val → Nat → List Int → Int × String

/-- What a show or store handler leaves behind: the `int` it returns, the
contents of `buf`, the external state, and the external calls it made, in order. -/
structure Ret (σ P D : Type) where
  ret : Int
  buf : String
  st : σ
  calls : List (Call P D)

/-- Whether a call is one to the chip driver (`lt8491_*`). -/
def Call.isChip {P D : Type} : Call P D → Bool
  | .no_os_calloc => false
  | .no_os_free _ => false
  | .iio_parse_value _ _ => false
  | .iio_format_value _ _ _ _ => false
  | _ => true

/-- The calls to the chip driver among `calls`. -/
def chipCalls {P D : Type} (calls : List (Call P D)) : List (Call P D) :=
  calls.filter Call.isChip

/-! ## The show handler -/

variable {σ P D : Type}

/-- The function `lt8491_ch_attr_show`. `ddev` is the device, `buf` the output
buffer with its length `len`, `priv` the attribute id (`channel` is not used by
the source). A `uint32_t` read goes through the cell `uval` and the assignment
`val = uval` to the `int32_t` the formatter is given; the serial id is handed
over as `(int32_t *)uvals`, so the formatter sees each word as an `int32_t`. -/
def lt8491_ch_attr_show (env : Env σ P D) (ddev : lt8491_iio_device D)
    (buf : String) (len : Nat) (priv : Int) (st : σ) : Ret σ P D :=
  match lt8491_attr_priv.ofInt priv with
  | some LT8491_TBAT =>
    let r := env.lt8491_read_tbat ddev.dev st
    if r.1 ≠ 0 then ⟨r.1, buf, r.2.2, [Call.lt8491_read_tbat ddev.dev]⟩
    else
      let val : Int := to_int32 r.2.1
      let f := env.iio_format_value len iio_val.IIO_VAL_INT 1 [val]
      ⟨f.1, f.2, r.2.2,
        [Call.lt8491_read_tbat ddev.dev, Call.iio_format_value len iio_val.IIO_VAL_INT 1 [val]]⟩
  | some LT8491_POUT =>
    let r := env.lt8491_read_pout ddev.dev st
    if r.1 ≠ 0 then ⟨r.1, buf, r.2.2, [Call.lt8491_read_pout ddev.dev]⟩
    else
      let uval : Nat := r.2.1 % 2 ^ 32
      let val : Int := to_int32 uval
      let f := env.iio_format_value len iio_val.IIO_VAL_INT 1 [val]
      ⟨f.1, f.2, r.2.2,
        [Call.lt8491_read_pout ddev.dev, Call.iio_format_value len iio_val.IIO_VAL_INT 1 [val]]⟩
  | some LT8491_PIN =>
    let r := env.lt8491_read_pin ddev.dev st
    if r.1 ≠ 0 then ⟨r.1, buf, r.2.2, [Call.lt8491_read_pin ddev.dev]⟩
    else
      let uval : Nat := r.2.1 % 2 ^ 32
      let val : Int := to_int32 uval
      let f := env.iio_format_value len iio_val.IIO_VAL_INT 1 [val]
      ⟨f.1, f.2, r.2.2,
        [Call.lt8491_read_pin ddev.dev, Call.iio_format_value len iio_val.IIO_VAL_INT 1 [val]]⟩
  | some LT8491_EFF =>
    let r := env.lt8491_read_efficiency ddev.dev st
    if r.1 ≠ 0 then ⟨r.1, buf, r.2.2, [Call.lt8491_read_efficiency ddev.dev]⟩
    else
      let uval : Nat := r.2.1 % 2 ^ 32
      let val : Int := to_int32 uval
      let f := env.iio_format_value len iio_val.IIO_VAL_INT 1 [val]
      ⟨f.1, f.2, r.2.2,
        [Call.lt8491_read_efficiency ddev.dev, Call.iio_format_value len iio_val.IIO_VAL_INT 1 [val]]⟩
  | some LT8491_IOUT =>
    let r := env.lt8491_read_iout ddev.dev st
    if r.1 ≠ 0 then ⟨r.1, buf, r.2.2, [Call.lt8491_read_iout ddev.dev]⟩
    else
      let uval : Nat := r.2.1 % 2 ^ 32
      let val : Int := to_int32 uval
      let f := env.iio_format_value len iio_val.IIO_VAL_INT 1 [val]
      ⟨f.1, f.2, r.2.2,
        [Call.lt8491_read_iout ddev.dev, Call.iio_format_value len iio_val.IIO_VAL_INT 1 [val]]⟩
  | some LT8491_IIN =>
    let r := env.lt8491_read_iin ddev.dev st
    if r.1 ≠ 0 then ⟨r.1, buf, r.2.2, [Call.lt8491_read_iin ddev.dev]⟩
    else
      let uval : Nat := r.2.1 % 2 ^ 32
      let val : Int := to_int32 uval
      let f := env.iio_format_value len iio_val.IIO_VAL_INT 1 [val]
      ⟨f.1, f.2, r.2.2,
        [Call.lt8491_read_iin ddev.dev, Call.iio_format_value len iio_val.IIO_VAL_INT 1 [val]]⟩
  | some LT8491_VBAT =>
    let r := env.lt8491_read_vbat ddev.dev st
    if r.1 ≠ 0 then ⟨r.1, buf, r.2.2, [Call.lt8491_read_vbat ddev.dev]⟩
    else
      let uval : Nat := r.2.1 % 2 ^ 32
      let val : Int := to_int32 uval
      let f := env.iio_format_value len iio_val.IIO_VAL_INT 1 [val]
      ⟨f.1, f.2, r.2.2,
        [Call.lt8491_read_vbat ddev.dev, Call.iio_format_value len iio_val.IIO_VAL_INT 1 [val]]⟩
  | some LT8491_VIN =>
    let r := env.lt8491_read_vin ddev.dev st
    if r.1 ≠ 0 then ⟨r.1, buf, r.2.2, [Call.lt8491_read_vin ddev.dev]⟩
    else
      let uval : Nat := r.2.1 % 2 ^ 32
      let val : Int := to_int32 uval
      let f := env.iio_format_value len iio_val.IIO_VAL_INT 1 [val]
      ⟨f.1, f.2, r.2.2,
        [Call.lt8491_read_vin ddev.dev, Call.iio_format_value len iio_val.IIO_VAL_INT 1 [val]]⟩
  | some LT8491_CHARGING_STAGE =>
    let r := env.lt8491_read_charging_stage ddev.dev st
    if r.1 ≠ 0 then ⟨r.1, buf, r.2.2, [Call.lt8491_read_charging_stage ddev.dev]⟩
    else
      let val : Int := to_int32 r.2.1
      let f := env.iio_format_value len iio_val.IIO_VAL_CHAR 1 [val]
      ⟨f.1, f.2, r.2.2,
        [Call.lt8491_read_charging_stage ddev.dev, Call.iio_format_value len iio_val.IIO_VAL_CHAR 1 [val]]⟩
  | some LT8491_CHARGING_STATUS =>
    let r := env.lt8491_read_charging_status ddev.dev st
    if r.1 ≠ 0 then ⟨r.1, buf, r.2.2, [Call.lt8491_read_charging_status ddev.dev]⟩
    else
      let uval : Nat := r.2.1 % 2 ^ 32
      let val : Int := to_int32 uval
      let f := env.iio_format_value len iio_val.IIO_VAL_INT 1 [val]
      ⟨f.1, f.2, r.2.2,
        [Call.lt8491_read_charging_status ddev.dev, Call.iio_format_value len iio_val.IIO_VAL_INT 1 [val]]⟩
  | some LT8491_ENABLE =>
    let r := env.lt8491_read_enable ddev.dev st
    if r.1 ≠ 0 then ⟨r.1, buf, r.2.2, [Call.lt8491_read_enable ddev.dev]⟩
    else
      let uval : Nat := r.2.1 % 2 ^ 32
      let val : Int := to_int32 uval
      let f := env.iio_format_value len iio_val.IIO_VAL_INT 1 [val]
      ⟨f.1, f.2, r.2.2,
        [Call.lt8491_read_enable ddev.dev, Call.iio_format_value len iio_val.IIO_VAL_INT 1 [val]]⟩
  | some LT8491_SCRATCH =>
    let r := env.lt8491_read_scratch ddev.dev st
    if r.1 ≠ 0 then ⟨r.1, buf, r.2.2, [Call.lt8491_read_scratch ddev.dev]⟩
    else
      let uval : Nat := r.2.1 % 2 ^ 32
      let val : Int := to_int32 uval
      let f := env.iio_format_value len iio_val.IIO_VAL_INT 1 [val]
      ⟨f.1, f.2, r.2.2,
        [Call.lt8491_read_scratch ddev.dev, Call.iio_format_value len iio_val.IIO_VAL_INT 1 [val]]⟩
  | some LT8491_SERIAL_ID =>
    let r := env.lt8491_read_serial_id ddev.dev st
    if r.1 ≠ 0 then ⟨r.1, buf, r.2.2, [Call.lt8491_read_serial_id ddev.dev]⟩
    else
      let uvals : List Nat := [r.2.1.1 % 2 ^ 32, r.2.1.2.1 % 2 ^ 32, r.2.1.2.2 % 2 ^ 32]
      let vals : List Int := uvals.map (fun u => to_int32 u)
      let f := env.iio_format_value len iio_val.IIO_VAL_INT_MULTIPLE uvals.length vals
      ⟨f.1, f.2, r.2.2,
        [Call.lt8491_read_serial_id ddev.dev,
         Call.iio_format_value len iio_val.IIO_VAL_INT_MULTIPLE uvals.length vals]⟩
  | _ => ⟨-EOPNOTSUPP, buf, st, []⟩

/-! ## The store handler -/

/-- The function `lt8491_ch_attr_store`. `val >> 1` on the `int32_t` is the
arithmetic shift. A write accessor takes a `uint32_t`. `return len` converts
the `uint32_t` length to the `int` result. The statements after the switch are
unreachable (every case returns) and are left out. -/
def lt8491_ch_attr_store (env : Env σ P D) (ddev : lt8491_iio_device D)
    (buf : String) (len : Nat) (priv : Int) (st : σ) : Ret σ P D :=
  match lt8491_attr_priv.ofInt priv with
  | some LT8491_ENABLE =>
    let p := env.iio_parse_value buf iio_val.IIO_VAL_INT
    if p.1 ≠ 0 then ⟨p.1, buf, st, [Call.iio_parse_value buf iio_val.IIO_VAL_INT]⟩
    else
      let val : Int := to_int32 p.2
      if val >>> (1 : Nat) ≠ 0 then
        ⟨-EINVAL, buf, st, [Call.iio_parse_value buf iio_val.IIO_VAL_INT]⟩
      else
        let w := env.lt8491_write_enable ddev.dev (to_uint32 val) st
        if w.1 ≠ 0 then
          ⟨w.1, buf, w.2, [Call.iio_parse_value buf iio_val.IIO_VAL_INT,
            Call.lt8491_write_enable ddev.dev (to_uint32 val)]⟩
        else
          ⟨to_int32 len, buf, w.2, [Call.iio_parse_value buf iio_val.IIO_VAL_INT,
            Call.lt8491_write_enable ddev.dev (to_uint32 val)]⟩
  | some LT8491_RESTART =>
    let p := env.iio_parse_value buf iio_val.IIO_VAL_INT
    if p.1 ≠ 0 then ⟨p.1, buf, st, [Call.iio_parse_value buf iio_val.IIO_VAL_INT]⟩
    else
      let val : Int := to_int32 p.2
      if val >>> (1 : Nat) ≠ 0 then
        ⟨-EINVAL, buf, st, [Call.iio_parse_value buf iio_val.IIO_VAL_INT]⟩
      else if val ≠ 0 then
        let w := env.lt8491_restart_chip ddev.dev st
        if w.1 ≠ 0 then
          ⟨w.1, buf, w.2, [Call.iio_parse_value buf iio_val.IIO_VAL_INT,
            Call.lt8491_restart_chip ddev.dev]⟩
        else
          ⟨to_int32 len, buf, w.2, [Call.iio_parse_value buf iio_val.IIO_VAL_INT,
            Call.lt8491_restart_chip ddev.dev]⟩
      else
        ⟨to_int32 len, buf, st, [Call.iio_parse_value buf iio_val.IIO_VAL_INT]⟩
  | some LT8491_SCRATCH =>
    let p := env.iio_parse_value buf iio_val.IIO_VAL_INT
    if p.1 ≠ 0 then ⟨p.1, buf, st, [Call.iio_parse_value buf iio_val.IIO_VAL_INT]⟩
    else
      let val : Int := to_int32 p.2
      let w := env.lt8491_write_scratch ddev.dev (to_uint32 val) st
      if w.1 ≠ 0 then
        ⟨w.1, buf, w.2, [Call.iio_parse_value buf iio_val.IIO_VAL_INT,
          Call.lt8491_write_scratch ddev.dev (to_uint32 val)]⟩
      else
        ⟨to_int32 len, buf, w.2, [Call.iio_parse_value buf iio_val.IIO_VAL_INT,
          Call.lt8491_write_scratch ddev.dev (to_uint32 val)]⟩
  | _ => ⟨-EOPNOTSUPP, buf, st, []⟩

/-! ## The attribute table -/

/-- The initialiser `LT8491_IIO_CH_ATTR_RW(_name, _priv)`. -/
def LT8491_IIO_CH_ATTR_RW (name : String) (priv : lt8491_attr_priv) : iio_attribute :=
  { name := name, priv := priv.toInt,
    show_ := some Handler.lt8491_ch_attr_show,
    store := some Handler.lt8491_ch_attr_store }

/-- The initialiser `LT8491_IIO_CH_ATTR_RO(_name, _priv)`. -/
def LT8491_IIO_CH_ATTR_RO (name : String) (priv : lt8491_attr_priv) : iio_attribute :=
  { name := name, priv := priv.toInt,
    show_ := some Handler.lt8491_ch_attr_show,
    store := none }

/-- The initialiser `LT8491_IIO_CH_ATTR_WO(_name, _priv)`. -/
def LT8491_IIO_CH_ATTR_WO (name : String) (priv : lt8491_attr_priv) : iio_attribute :=
  { name := name, priv := priv.toInt,
    show_ := none,
    store := some Handler.lt8491_ch_attr_store }

/-- The array `lt8491_iio_attrs`, without its terminator `END_ATTRIBUTES_ARRAY`. -/
def lt8491_iio_attrs : List iio_attribute :=
  [ LT8491_IIO_CH_ATTR_RO "tbat" LT8491_TBAT,
    LT8491_IIO_CH_ATTR_RO "pout" LT8491_POUT,
    LT8491_IIO_CH_ATTR_RO "pin" LT8491_PIN,
    LT8491_IIO_CH_ATTR_RO "efficiency" LT8491_EFF,
    LT8491_IIO_CH_ATTR_RO "iout" LT8491_IOUT,
    LT8491_IIO_CH_ATTR_RO "iin" LT8491_IIN,
    LT8491_IIO_CH_ATTR_RO "vbat" LT8491_VBAT,
    LT8491_IIO_CH_ATTR_RO "vin" LT8491_VIN,
    LT8491_IIO_CH_ATTR_RO "charging_stage" LT8491_CHARGING_STAGE,
    LT8491_IIO_CH_ATTR_RO "charging_status" LT8491_CHARGING_STATUS,
    LT8491_IIO_CH_ATTR_RW "enable" LT8491_ENABLE,
    LT8491_IIO_CH_ATTR_WO "reset" LT8491_RESTART,
    LT8491_IIO_CH_ATTR_RW "scratch" LT8491_SCRATCH,
    LT8491_IIO_CH_ATTR_RO "serial_id" LT8491_SERIAL_ID ]

/-- The static `lt8491_iio_dev`. -/
def lt8491_iio_dev : iio_device :=
  { debug_reg_read := some Handler.lt8491_iio_reg_read,
    debug_reg_write := some Handler.lt8491_iio_reg_write,
    attributes := lt8491_iio_attrs }

/-- Modelled from the spec: the registry lookup `resolve(name)`, which lives in
the IIO core and not in this driver: the first descriptor of the table whose
name equals `name`, or nothing. -/
def resolve (table : List iio_attribute) (name : String) : Option iio_attribute :=
  table.find? (fun d => d.name == name)

/-! ## Bring-up -/

/-- What `lt8491_iio_init` leaves behind: the `int` it returns, the contents of
the output location `*iio_device` (the address of the wrapper and the wrapper),
the external state, and the external calls it made, in order. -/
structure InitRet (σ P D : Type) where
  ret : Int
  iio_device : Option (Nat × lt8491_iio_device D)
  st : σ
  calls : List (Call P D)

/-- The label `free_dev:` of `lt8491_iio_init`, reached with result `ret`
after the calls `calls`: the wrapper at `iio_device_temp` is freed. -/
def free_dev (env : Env σ P D) (iio_device : Option (Nat × lt8491_iio_device D))
    (iio_device_temp : Nat) (ret : Int) (st : σ) (calls : List (Call P D)) :
    InitRet σ P D :=
  ⟨ret, iio_device, env.no_os_free iio_device_temp st,
    calls ++ [Call.no_os_free iio_device_temp]⟩

/-- The label `remove_dev:` of `lt8491_iio_init`: the chip driver `dev` is
removed, then control falls through to `free_dev:`. -/
def remove_dev (env : Env σ P D) (iio_device : Option (Nat × lt8491_iio_device D))
    (iio_device_temp : Nat) (dev : D) (ret : Int) (st : σ) (calls : List (Call P D)) :
    InitRet σ P D :=
  free_dev env iio_device iio_device_temp ret (env.lt8491_remove dev st).2
    (calls ++ [Call.lt8491_remove dev])

/-- The function `lt8491_iio_init`. `iio_device` is what the output location
holds before the call, `iio_init_param` the parameter pointer (`none` is
`NULL`). -/
def lt8491_iio_init (env : Env σ P D) (iio_device : Option (Nat × lt8491_iio_device D))
    (iio_init_param : Option (lt8491_iio_init_param P)) (st : σ) : InitRet σ P D :=
  match iio_init_param with
  | none => ⟨-EINVAL, iio_device, st, []⟩
  | some ip =>
    match ip.init_param with
    | none => ⟨-EINVAL, iio_device, st, []⟩
    | some init_param =>
      let a := env.no_os_calloc st
      match a.1 with
      | none => ⟨-ENOMEM, iio_device, a.2, [Call.no_os_calloc]⟩
      | some iio_device_temp =>
        let i := env.lt8491_init init_param a.2
        let dev := i.2.1
        if i.1 ≠ 0 then
          free_dev env iio_device iio_device_temp i.1 i.2.2
            [Call.no_os_calloc, Call.lt8491_init init_param]
        else
          let r := env.lt8491_restart_chip dev i.2.2
          if r.1 ≠ 0 then
            remove_dev env iio_device iio_device_temp dev r.1 r.2
              [Call.no_os_calloc, Call.lt8491_init init_param,
               Call.lt8491_restart_chip dev]
          else
            let e := env.lt8491_write_enable dev 0 r.2
            if e.1 ≠ 0 then
              remove_dev env iio_device iio_device_temp dev e.1 e.2
                [Call.no_os_calloc, Call.lt8491_init init_param,
                 Call.lt8491_restart_chip dev, Call.lt8491_write_enable dev 0]
            else
              let t := env.lt8491_configure_telemetry dev init_param e.2
              if t.1 ≠ 0 then
                remove_dev env iio_device iio_device_temp dev t.1 t.2
                  [Call.no_os_calloc, Call.lt8491_init init_param,
                   Call.lt8491_restart_chip dev, Call.lt8491_write_enable dev 0,
                   Call.lt8491_configure_telemetry dev init_param]
              else
                ⟨0, some (iio_device_temp, { dev := dev, iio_dev := some lt8491_iio_dev }),
                  t.2,
                  [Call.no_os_calloc, Call.lt8491_init init_param,
                   Call.lt8491_restart_chip dev, Call.lt8491_write_enable dev 0,
                   Call.lt8491_configure_telemetry dev init_param]⟩

/-- The result of the `lt8491_init` call of a bring-up with parameters
`init_param` from state `st` (reached when allocation succeeds). -/
def bringup_init (env : Env σ P D) (init_param : P) (st : σ) : Int × D × σ :=
  env.lt8491_init init_param (env.no_os_calloc st).2

/-- The result of the `lt8491_restart_chip` call of that bring-up. -/
def bringup_restart (env : Env σ P D) (init_param : P) (st : σ) : Int × σ :=
  env.lt8491_restart_chip (bringup_init env init_param st).2.1
    (bringup_init env init_param st).2.2

/-- The result of the `lt8491_write_enable(dev, false)` call of that bring-up. -/
def bringup_disable (env : Env σ P D) (init_param : P) (st : σ) : Int × σ :=
  env.lt8491_write_enable (bringup_init env init_param st).2.1 0
    (bringup_restart env init_param st).2

/-- The result of the `lt8491_configure_telemetry` call of that bring-up. -/
def bringup_telemetry (env : Env σ P D) (init_param : P) (st : σ) : Int × σ :=
  env.lt8491_configure_telemetry (bringup_init env init_param st).2.1 init_param
    (bringup_disable env init_param st).2

/-- Whether a call is a `no_os_free`. -/
def Call.isFree {P D : Type} : Call P D → Bool
  | .no_os_free _ => true
  | _ => false

/-- Whether a call is a `lt8491_remove`. -/
def Call.isRemove {P D : Type} : Call P D → Bool
  | .lt8491_remove _ => true
  | _ => false

/-- Whether a call is one to a read accessor of the chip driver. -/
def Call.isRead {P D : Type} : Call P D → Bool
  | .lt8491_read_tbat _ => true
  | .lt8491_read_pout _ => true
  | .lt8491_read_pin _ => true
  | .lt8491_read_efficiency _ => true
  | .lt8491_read_iout _ => true
  | .lt8491_read_iin _ => true
  | .lt8491_read_vbat _ => true
  | .lt8491_read_vin _ => true
  | .lt8491_read_charging_stage _ => true
  | .lt8491_read_charging_status _ => true
  | .lt8491_read_enable _ => true
  | .lt8491_read_scratch _ => true
  | .lt8491_read_serial_id _ => true
  | _ => false

/-- The `int` result of the read accessor that the case of `lt8491_ch_attr_show`
for the id calls first; `none` for the id without a case (Restart). -/
def read_result (env : Env σ P D) (dev : D) (st : σ) : lt8491_attr_priv → Option Int
  | LT8491_TBAT => some (env.lt8491_read_tbat dev st).1
  | LT8491_POUT => some (env.lt8491_read_pout dev st).1
  | LT8491_PIN => some (env.lt8491_read_pin dev st).1
  | LT8491_EFF => some (env.lt8491_read_efficiency dev st).1
  | LT8491_IOUT => some (env.lt8491_read_iout dev st).1
  | LT8491_IIN => some (env.lt8491_read_iin dev st).1
  | LT8491_VBAT => some (env.lt8491_read_vbat dev st).1
  | LT8491_VIN => some (env.lt8491_read_vin dev st).1
  | LT8491_CHARGING_STAGE => some (env.lt8491_read_charging_stage dev st).1
  | LT8491_CHARGING_STATUS => some (env.lt8491_read_charging_status dev st).1
  | LT8491_ENABLE => some (env.lt8491_read_enable dev st).1
  | LT8491_RESTART => none
  | LT8491_SCRATCH => some (env.lt8491_read_scratch dev st).1
  | LT8491_SERIAL_ID => some (env.lt8491_read_serial_id dev st).1

/-- The `int` result of the chip accessor that the case of `lt8491_ch_attr_store`
for the id calls with the value `val`; `none` for an id without a case. -/
def write_result (env : Env σ P D) (dev : D) (val : Nat) (st : σ) :
    lt8491_attr_priv → Option Int
  | LT8491_ENABLE => some (env.lt8491_write_enable dev val st).1
  | LT8491_RESTART => some (env.lt8491_restart_chip dev st).1
  | LT8491_SCRATCH => some (env.lt8491_write_scratch dev val st).1
  | _ => none

/-! ## The raw register channel -/

/-- One call to a register accessor of the chip driver, with the arguments
passed (the output pointer apart). -/
inductive RegCall (D : Type) where
  | lt8491_reg_read (dev : D) (addr : Nat) (is_word : Bool)
  | lt8491_reg_write (dev : D) (addr : Nat) (val : Nat) (is_word : Bool)
  deriving DecidableEq

/-- The register accessors of the chip driver. Each returns its `int` result
first; `lt8491_reg_read` then the `uint16_t` it stores through its output
pointer, `none` when it stores nothing. -/
structure RegEnv (σ D : Type) where
  lt8491_reg_read : D → Nat → Bool → σ → Int × Option Nat × σ
  lt8491_reg_write : D → Nat → Nat → Bool → σ → Int × σ

/-- What `lt8491_iio_reg_read` leaves behind: the `int32_t` it returns, the
contents of the 32-bit carrier `*readval`, the external state, and the calls it
made to the chip driver. -/
structure RegReadRet (σ D : Type) where
  ret : Int
  readval : Nat
  st : σ
  calls : List (RegCall D)

/-- What `lt8491_iio_reg_write` leaves behind: the `int32_t` it returns, the
external state, and the calls it made to the chip driver. -/
structure RegWriteRet (σ D : Type) where
  ret : Int
  st : σ
  calls : List (RegCall D)

/-- The contents of a `uint32_t` cell holding `cell` after a `uint16_t` store of
`val` through a pointer to the cell cast to `uint16_t *`. The store covers the
two bytes at the cell's address: the low half of the cell on a little-endian
target, the high half on a big-endian one. The other half keeps its contents. -/
def store_uint16_at (big_endian : Bool) (cell : Nat) (val : Nat) : Nat :=
  if big_endian then (val % 2 ^ 16) * 2 ^ 16 + cell % 2 ^ 16
  else (cell / 2 ^ 16 % 2 ^ 16) * 2 ^ 16 + val % 2 ^ 16

/-- The function `lt8491_iio_reg_read`. `readval` is what the carrier holds
before the call; the chip driver is given `(uint8_t)reg`, the carrier's address
as `(uint16_t*)readval`, and `false`. -/
def lt8491_iio_reg_read (renv : RegEnv σ D) (big_endian : Bool)
    (dev : lt8491_iio_device D) (reg : Nat) (readval : Nat) (st : σ) : RegReadRet σ D :=
  let r := renv.lt8491_reg_read dev.dev (reg % 2 ^ 8) false st
  ⟨r.1,
    match r.2.1 with
    | some val => store_uint16_at big_endian readval val
    | none => readval,
    r.2.2,
    [RegCall.lt8491_reg_read dev.dev (reg % 2 ^ 8) false]⟩

/-- The function `lt8491_iio_reg_write`: the chip driver is given
`(uint8_t)reg`, `(uint16_t)writeval` and `false`. -/
def lt8491_iio_reg_write (renv : RegEnv σ D) (dev : lt8491_iio_device D)
    (reg : Nat) (writeval : Nat) (st : σ) : RegWriteRet σ D :=
  let w := renv.lt8491_reg_write dev.dev (reg % 2 ^ 8) (writeval % 2 ^ 16) false st
  ⟨w.1, w.2, [RegCall.lt8491_reg_write dev.dev (reg % 2 ^ 8) (writeval % 2 ^ 16) false]⟩

/-! ## A recording fake chip

A concrete `Env` for evaluating the driver: the chip state holds the enable
flag and the scratch register (each write accessor persists what it is given),
the results the accessors are to return are fixed by a `FakeCfg`. -/

/-- The state of the fake chip. -/
structure FakeState where
  enable : Nat
  scratch : Nat
  deriving DecidableEq

/-- The behaviour of the fake collaborators: the result of each accessor, the
values the read accessors deliver, whether allocation succeeds, and what the
input text parses to. -/
structure FakeCfg where
  calloc_ok : Bool
  ret_init : Int
  ret_restart : Int
  ret_write_enable : Int
  ret_telemetry : Int
  ret_write_scratch : Int
  ret_read : Int
  tbat : Int
  uval : Nat
  serial : Nat × Nat × Nat
  parse : Int × Int

/-- A configuration in which every collaborator succeeds. -/
def okCfg : FakeCfg :=
  { calloc_ok := true, ret_init := 0, ret_restart := 0, ret_write_enable := 0,
    ret_telemetry := 0, ret_write_scratch := 0, ret_read := 0, tbat := 25,
    uval := 7, serial := (1, 2, 3), parse := (0, 1) }

/-- The fake collaborators for a configuration; the chip descriptor is the
number 5, an allocation returns the address 64, a formatted value is the text
"ok" with result 2. -/
def fakeEnv (c : FakeCfg) : Env FakeState Nat Nat :=
  { no_os_calloc := fun s => (if c.calloc_ok then some 64 else none, s)
    no_os_free := fun _ s => s
    lt8491_init := fun _ s => (c.ret_init, 5, s)
    lt8491_remove := fun _ s => (0, s)
    lt8491_restart_chip := fun _ s => (c.ret_restart, s)
    lt8491_write_enable := fun _ v s =>
      (c.ret_write_enable, if c.ret_write_enable = 0 then { s with enable := v } else s)
    lt8491_configure_telemetry := fun _ _ s => (c.ret_telemetry, s)
    lt8491_write_scratch := fun _ v s =>
      (c.ret_write_scratch, if c.ret_write_scratch = 0 then { s with scratch := v } else s)
    lt8491_read_tbat := fun _ s => (c.ret_read, c.tbat, s)
    lt8491_read_pout := fun _ s => (c.ret_read, c.uval, s)
    lt8491_read_pin := fun _ s => (c.ret_read, c.uval, s)
    lt8491_read_efficiency := fun _ s => (c.ret_read, c.uval, s)
    lt8491_read_iout := fun _ s => (c.ret_read, c.uval, s)
    lt8491_read_iin := fun _ s => (c.ret_read, c.uval, s)
    lt8491_read_vbat := fun _ s => (c.ret_read, c.uval, s)
    lt8491_read_vin := fun _ s => (c.ret_read, c.uval, s)
    lt8491_read_charging_stage := fun _ s => (c.ret_read, c.tbat, s)
    lt8491_read_charging_status := fun _ s => (c.ret_read, c.uval, s)
    lt8491_read_enable := fun _ s => (c.ret_read, s.enable, s)
    lt8491_read_scratch := fun _ s => (c.ret_read, s.scratch, s)
    lt8491_read_serial_id := fun _ s => (c.ret_read, c.serial, s)
    iio_parse_value := fun _ _ => c.parse
    iio_format_value := fun _ _ _ _ => (2, "ok") }

/-- The fake collaborators succeed and the input text parses to 2. -/
def cfgParse2 : FakeCfg := { okCfg with parse := (0, 2) }

/-- Every collaborator succeeds except `lt8491_configure_telemetry`, which returns -5. -/
def cfgTelemetryFails : FakeCfg := { okCfg with ret_telemetry := -5 }

/-- Every read accessor of the fake chip fails with -5. -/
def cfgReadFails : FakeCfg := { okCfg with ret_read := -5 }

/-- Every read accessor of the fake chip fails with -22, the value of `-EINVAL`. -/
def cfgReadEINVAL : FakeCfg := { okCfg with ret_read := -22 }

/-- Every read accessor of the fake chip fails with -95, the value of `-EOPNOTSUPP`. -/
def cfgReadEOPNOTSUPP : FakeCfg := { okCfg with ret_read := -95 }

/-- The unsigned read accessors of the fake chip deliver `2^32 - 1`. -/
def cfgUvalMax : FakeCfg := { okCfg with uval := 4294967295 }

/-- The serial id of the fake chip has the first word `2^31`. -/
def cfgSerialBig : FakeCfg := { okCfg with serial := (2147483648, 2, 3) }

/-- The fake collaborators succeed and the input text parses to -7. -/
def cfgParseNeg7 : FakeCfg := { okCfg with parse := (0, -7) }

/-- The register accessors of the fake chip: every register reads as 0x1234,
with result `ret`; a register write succeeds and changes nothing. -/
def fakeRegEnv (ret : Int) : RegEnv FakeState Nat :=
  { lt8491_reg_read := fun _ _ _ s => (ret, some 4660, s)
    lt8491_reg_write := fun _ _ _ _ s => (0, s) }

/-- The device the fake chip is driven through. -/
def fakeDev : lt8491_iio_device Nat := { dev := 5, iio_dev := some lt8491_iio_dev }

/-- The initial state of the fake chip. -/
def fakeSt : FakeState := { enable := 0, scratch := 0 }

/-! ## Arithmetic of the 32-bit cells -/

theorem to_int32_of_range (v : Int) (h1 : -2 ^ 31 ≤ v) (h2 : v < 2 ^ 31) :
    to_int32 v = v := by
  unfold to_int32
  omega

theorem shift_ne_zero_iff (v : Int) : v >>> (1 : Nat) ≠ 0 ↔ (v ≠ 0 ∧ v ≠ 1) := by
  rw [Int.shiftRight_eq_div_pow]
  omega

theorem to_uint32_of_nonneg (v : Int) (h1 : 0 ≤ v) (h2 : v < 2 ^ 32) :
    to_uint32 v = v.toNat := by
  unfold to_uint32
  congr 1
  omega

theorem ofInt_toInt (p : lt8491_attr_priv) : lt8491_attr_priv.ofInt p.toInt = some p := by
  cases p <;> rfl

/-! ## Store: Enable and Restart -/

/-- C1: store on the Enable attribute, the input text parsing with result `e`
to the 32-bit signed integer `v`. If parsing fails (`e ≠ 0`) the handler returns
`e` having called the parser only. If it succeeds and `v` is neither 0 nor 1
(every negative `v` included) the handler returns `-EINVAL` having called no
chip accessor, the chip state untouched. If `v` is 0 or 1 the handler calls
`lt8491_write_enable` exactly once, with the value `v`, and nothing else of the
chip. -/
theorem store_enable_domain (env : Env σ P D) (ddev : lt8491_iio_device D)
    (buf : String) (len : Nat) (st : σ) (e v : Int)
    (hlo : -2 ^ 31 ≤ v) (hhi : v < 2 ^ 31)
    (hparse : env.iio_parse_value buf iio_val.IIO_VAL_INT = (e, v)) :
    (e ≠ 0 →
      (lt8491_ch_attr_store env ddev buf len LT8491_ENABLE.toInt st).ret = e ∧
      (lt8491_ch_attr_store env ddev buf len LT8491_ENABLE.toInt st).calls
        = [Call.iio_parse_value buf iio_val.IIO_VAL_INT] ∧
      chipCalls (lt8491_ch_attr_store env ddev buf len LT8491_ENABLE.toInt st).calls = [] ∧
      (lt8491_ch_attr_store env ddev buf len LT8491_ENABLE.toInt st).st = st) ∧
    (e = 0 → v ≠ 0 → v ≠ 1 →
      (lt8491_ch_attr_store env ddev buf len LT8491_ENABLE.toInt st).ret = -EINVAL ∧
      (lt8491_ch_attr_store env ddev buf len LT8491_ENABLE.toInt st).calls
        = [Call.iio_parse_value buf iio_val.IIO_VAL_INT] ∧
      chipCalls (lt8491_ch_attr_store env ddev buf len LT8491_ENABLE.toInt st).calls = [] ∧
      (lt8491_ch_attr_store env ddev buf len LT8491_ENABLE.toInt st).st = st) ∧
    (e = 0 → (v = 0 ∨ v = 1) →
      (lt8491_ch_attr_store env ddev buf len LT8491_ENABLE.toInt st).calls
        = [Call.iio_parse_value buf iio_val.IIO_VAL_INT,
           Call.lt8491_write_enable ddev.dev v.toNat] ∧
      chipCalls (lt8491_ch_attr_store env ddev buf len LT8491_ENABLE.toInt st).calls
        = [Call.lt8491_write_enable ddev.dev v.toNat]) := by
  have hs := shift_ne_zero_iff v
  have hv := to_int32_of_range v hlo hhi
  refine ⟨?_, ?_, ?_⟩
  · intro he
    simp [lt8491_ch_attr_store, ofInt_toInt, hparse, he, chipCalls, Call.isChip]
  · intro he h0 h1
    have hsh : v >>> (1 : Nat) ≠ 0 := hs.2 ⟨h0, h1⟩
    simp [lt8491_ch_attr_store, ofInt_toInt, hparse, he, hv, hsh, chipCalls, Call.isChip]
  · intro he h01
    have hsh : v >>> (1 : Nat) = 0 := by
      by_contra hc
      have := hs.1 hc
      omega
    have hu : to_uint32 v = v.toNat := to_uint32_of_nonneg v (by omega) (by omega)
    by_cases hw : (env.lt8491_write_enable ddev.dev v.toNat st).1 = 0 <;>
      simp [lt8491_ch_attr_store, ofInt_toInt, hparse, he, hv, hsh, hu, hw, chipCalls,
        Call.isChip]

theorem to_int32_of_len (len : Nat) (h : len < 2 ^ 31) : to_int32 (len : Int) = len := by
  unfold to_int32
  omega

/-- The store of "2" to Enable on the fake chip is refused with `-EINVAL` and
reaches no chip accessor (an instance of `store_enable_domain`). -/
theorem store_enable_domain_witness :
    (lt8491_ch_attr_store (fakeEnv cfgParse2) fakeDev "2" 1 LT8491_ENABLE.toInt fakeSt).ret
      = -EINVAL ∧
    chipCalls
      (lt8491_ch_attr_store (fakeEnv cfgParse2) fakeDev "2" 1 LT8491_ENABLE.toInt fakeSt).calls
      = [] :=
  have h := (store_enable_domain (fakeEnv cfgParse2) fakeDev "2" 1 fakeSt 0 2
    (by decide) (by decide) rfl).2.1 rfl (by decide) (by decide)
  ⟨h.1, h.2.2.1⟩

/-- C2: store on the Restart attribute ("reset"), the input text parsing
successfully to the 32-bit signed integer `v`. For `v = 0` the handler takes the
`return len` exit (the result is `(int)len`, which is `len` itself for
`len < 2^31`) and calls nothing of the chip. For `v = 1` it calls
`lt8491_restart_chip` exactly once; it takes the `return len` exit when that
call returns 0 and returns the call's result unchanged when it is nonzero. For
every other `v`, negative ones included, it returns `-EINVAL` and calls nothing
of the chip. -/
theorem store_restart_semantics (env : Env σ P D) (ddev : lt8491_iio_device D)
    (buf : String) (len : Nat) (st : σ) (v : Int)
    (hlo : -2 ^ 31 ≤ v) (hhi : v < 2 ^ 31)
    (hparse : env.iio_parse_value buf iio_val.IIO_VAL_INT = (0, v)) :
    (v = 0 →
      (lt8491_ch_attr_store env ddev buf len LT8491_RESTART.toInt st).ret = to_int32 len ∧
      (len < 2 ^ 31 →
        (lt8491_ch_attr_store env ddev buf len LT8491_RESTART.toInt st).ret = len) ∧
      (lt8491_ch_attr_store env ddev buf len LT8491_RESTART.toInt st).calls
        = [Call.iio_parse_value buf iio_val.IIO_VAL_INT] ∧
      chipCalls (lt8491_ch_attr_store env ddev buf len LT8491_RESTART.toInt st).calls = [] ∧
      (lt8491_ch_attr_store env ddev buf len LT8491_RESTART.toInt st).st = st) ∧
    (v = 1 →
      (lt8491_ch_attr_store env ddev buf len LT8491_RESTART.toInt st).calls
        = [Call.iio_parse_value buf iio_val.IIO_VAL_INT, Call.lt8491_restart_chip ddev.dev] ∧
      chipCalls (lt8491_ch_attr_store env ddev buf len LT8491_RESTART.toInt st).calls
        = [Call.lt8491_restart_chip ddev.dev] ∧
      ((env.lt8491_restart_chip ddev.dev st).1 = 0 →
        (lt8491_ch_attr_store env ddev buf len LT8491_RESTART.toInt st).ret = to_int32 len ∧
        (len < 2 ^ 31 →
          (lt8491_ch_attr_store env ddev buf len LT8491_RESTART.toInt st).ret = len)) ∧
      ((env.lt8491_restart_chip ddev.dev st).1 ≠ 0 →
        (lt8491_ch_attr_store env ddev buf len LT8491_RESTART.toInt st).ret
          = (env.lt8491_restart_chip ddev.dev st).1)) ∧
    (v ≠ 0 → v ≠ 1 →
      (lt8491_ch_attr_store env ddev buf len LT8491_RESTART.toInt st).ret = -EINVAL ∧
      (lt8491_ch_attr_store env ddev buf len LT8491_RESTART.toInt st).calls
        = [Call.iio_parse_value buf iio_val.IIO_VAL_INT] ∧
      chipCalls (lt8491_ch_attr_store env ddev buf len LT8491_RESTART.toInt st).calls = [] ∧
      (lt8491_ch_attr_store env ddev buf len LT8491_RESTART.toInt st).st = st) := by
  have hv := to_int32_of_range v hlo hhi
  refine ⟨?_, ?_, ?_⟩
  · intro h0
    subst h0
    have hsh : (0 : Int) >>> (1 : Nat) = 0 := by decide
    refine ⟨?_, ?_, ?_⟩
    · simp [lt8491_ch_attr_store, ofInt_toInt, hparse, hv, hsh]
    · intro hl
      simp [lt8491_ch_attr_store, ofInt_toInt, hparse, hv, hsh, to_int32_of_len len hl]
    · simp [lt8491_ch_attr_store, ofInt_toInt, hparse, hv, hsh, chipCalls, Call.isChip]
  · intro h1
    subst h1
    have hsh : (1 : Int) >>> (1 : Nat) = 0 := by decide
    by_cases hw : (env.lt8491_restart_chip ddev.dev st).1 = 0
    · refine ⟨?_, ?_, ?_, ?_⟩
      · simp [lt8491_ch_attr_store, ofInt_toInt, hparse, hv, hsh, hw]
      · simp [lt8491_ch_attr_store, ofInt_toInt, hparse, hv, hsh, hw, chipCalls, Call.isChip]
      · intro _
        refine ⟨?_, ?_⟩
        · simp [lt8491_ch_attr_store, ofInt_toInt, hparse, hv, hsh, hw]
        · intro hl
          simp [lt8491_ch_attr_store, ofInt_toInt, hparse, hv, hsh, hw,
            to_int32_of_len len hl]
      · intro hc
        exact absurd hw hc
    · refine ⟨?_, ?_, ?_, ?_⟩
      · simp [lt8491_ch_attr_store, ofInt_toInt, hparse, hv, hsh, hw]
      · simp [lt8491_ch_attr_store, ofInt_toInt, hparse, hv, hsh, hw, chipCalls, Call.isChip]
      · intro hc
        exact absurd hc hw
      · intro _
        simp [lt8491_ch_attr_store, ofInt_toInt, hparse, hv, hsh, hw]
  · intro h0 h1
    have hsh : v >>> (1 : Nat) ≠ 0 := (shift_ne_zero_iff v).2 ⟨h0, h1⟩
    simp [lt8491_ch_attr_store, ofInt_toInt, hparse, hv, hsh, chipCalls, Call.isChip]

/-- The store of "1" to Restart on the fake chip restarts the chip exactly once
and returns the length (an instance of `store_restart_semantics`). -/
theorem store_restart_semantics_witness :
    chipCalls
      (lt8491_ch_attr_store (fakeEnv okCfg) fakeDev "1" 1 LT8491_RESTART.toInt fakeSt).calls
      = [Call.lt8491_restart_chip 5] ∧
    (lt8491_ch_attr_store (fakeEnv okCfg) fakeDev "1" 1 LT8491_RESTART.toInt fakeSt).ret = 1 :=
  have h := (store_restart_semantics (fakeEnv okCfg) fakeDev "1" 1 fakeSt 1
    (by decide) (by decide) rfl).2.1 rfl
  ⟨h.2.1, by simpa using (h.2.2.1 rfl).2 (by decide)⟩

/-! ## Bring-up -/

/-- C3: `lt8491_iio_init` is atomic on failure. Each way of failing makes it
return the error and leaves the output location `*iio_device` as it was: null
parameters give `-EINVAL` with no call at all; a failed allocation gives
`-ENOMEM` after the allocation call alone; a nonzero result of `lt8491_init`,
`lt8491_restart_chip`, `lt8491_write_enable` or `lt8491_configure_telemetry`
(the earlier steps having returned 0) is returned as it is, the wrapper is
freed exactly once, and `lt8491_remove` is called not at all when it was
`lt8491_init` that failed and exactly once, before the free, when
`lt8491_init` had succeeded. When only the telemetry step fails, restart and
`write_enable(false)` have each been called once. The external state after a
failure is the one these calls leave. Only when allocation and all four steps
succeed is the result 0; and whenever the result is nonzero the output location
is untouched. -/
theorem init_failure_atomic (env : Env σ P D)
    (iio_device : Option (Nat × lt8491_iio_device D))
    (iio_init_param : Option (lt8491_iio_init_param P)) (st : σ) :
    ((lt8491_iio_init env iio_device iio_init_param st).ret ≠ 0 →
      (lt8491_iio_init env iio_device iio_init_param st).iio_device = iio_device) ∧
    ((iio_init_param = none ∨ iio_init_param = some ⟨none⟩) →
      (lt8491_iio_init env iio_device iio_init_param st).ret = -EINVAL ∧
      (lt8491_iio_init env iio_device iio_init_param st).ret ≠ 0 ∧
      (lt8491_iio_init env iio_device iio_init_param st).iio_device = iio_device ∧
      (lt8491_iio_init env iio_device iio_init_param st).calls = [] ∧
      (lt8491_iio_init env iio_device iio_init_param st).st = st) ∧
    (∀ p : P, iio_init_param = some ⟨some p⟩ →
      ((env.no_os_calloc st).1 = none →
        (lt8491_iio_init env iio_device iio_init_param st).ret = -ENOMEM ∧
        (lt8491_iio_init env iio_device iio_init_param st).ret ≠ 0 ∧
        (lt8491_iio_init env iio_device iio_init_param st).iio_device = iio_device ∧
        (lt8491_iio_init env iio_device iio_init_param st).calls = [Call.no_os_calloc] ∧
        (lt8491_iio_init env iio_device iio_init_param st).st = (env.no_os_calloc st).2) ∧
      (∀ ptr : Nat, (env.no_os_calloc st).1 = some ptr →
        ((bringup_init env p st).1 ≠ 0 →
          (lt8491_iio_init env iio_device iio_init_param st).ret = (bringup_init env p st).1 ∧
          (lt8491_iio_init env iio_device iio_init_param st).ret ≠ 0 ∧
          (lt8491_iio_init env iio_device iio_init_param st).iio_device = iio_device ∧
          (lt8491_iio_init env iio_device iio_init_param st).calls =
            [Call.no_os_calloc, Call.lt8491_init p, Call.no_os_free ptr] ∧
          (lt8491_iio_init env iio_device iio_init_param st).calls.countP Call.isFree = 1 ∧
          (lt8491_iio_init env iio_device iio_init_param st).calls.countP Call.isRemove = 0 ∧
          (lt8491_iio_init env iio_device iio_init_param st).st = env.no_os_free ptr (bringup_init env p st).2.2) ∧
        ((bringup_init env p st).1 = 0 →
          (bringup_restart env p st).1 ≠ 0 →
          (lt8491_iio_init env iio_device iio_init_param st).ret = (bringup_restart env p st).1 ∧
          (lt8491_iio_init env iio_device iio_init_param st).ret ≠ 0 ∧
          (lt8491_iio_init env iio_device iio_init_param st).iio_device = iio_device ∧
          (lt8491_iio_init env iio_device iio_init_param st).calls =
            [Call.no_os_calloc, Call.lt8491_init p,
             Call.lt8491_restart_chip (bringup_init env p st).2.1,
             Call.lt8491_remove (bringup_init env p st).2.1, Call.no_os_free ptr] ∧
          (lt8491_iio_init env iio_device iio_init_param st).calls.countP Call.isFree = 1 ∧
          (lt8491_iio_init env iio_device iio_init_param st).calls.countP Call.isRemove = 1 ∧
          (lt8491_iio_init env iio_device iio_init_param st).st = env.no_os_free ptr
            (env.lt8491_remove (bringup_init env p st).2.1 (bringup_restart env p st).2).2) ∧
        ((bringup_init env p st).1 = 0 →
          (bringup_restart env p st).1 = 0 →
          (bringup_disable env p st).1 ≠ 0 →
          (lt8491_iio_init env iio_device iio_init_param st).ret = (bringup_disable env p st).1 ∧
          (lt8491_iio_init env iio_device iio_init_param st).ret ≠ 0 ∧
          (lt8491_iio_init env iio_device iio_init_param st).iio_device = iio_device ∧
          (lt8491_iio_init env iio_device iio_init_param st).calls =
            [Call.no_os_calloc, Call.lt8491_init p,
             Call.lt8491_restart_chip (bringup_init env p st).2.1,
             Call.lt8491_write_enable (bringup_init env p st).2.1 0,
             Call.lt8491_remove (bringup_init env p st).2.1, Call.no_os_free ptr] ∧
          (lt8491_iio_init env iio_device iio_init_param st).calls.countP Call.isFree = 1 ∧
          (lt8491_iio_init env iio_device iio_init_param st).calls.countP Call.isRemove = 1 ∧
          (lt8491_iio_init env iio_device iio_init_param st).st = env.no_os_free ptr
            (env.lt8491_remove (bringup_init env p st).2.1 (bringup_disable env p st).2).2) ∧
        ((bringup_init env p st).1 = 0 →
          (bringup_restart env p st).1 = 0 →
          (bringup_disable env p st).1 = 0 →
          (bringup_telemetry env p st).1 ≠ 0 →
          (lt8491_iio_init env iio_device iio_init_param st).ret = (bringup_telemetry env p st).1 ∧
          (lt8491_iio_init env iio_device iio_init_param st).ret ≠ 0 ∧
          (lt8491_iio_init env iio_device iio_init_param st).iio_device = iio_device ∧
          (lt8491_iio_init env iio_device iio_init_param st).calls =
            [Call.no_os_calloc, Call.lt8491_init p,
             Call.lt8491_restart_chip (bringup_init env p st).2.1,
             Call.lt8491_write_enable (bringup_init env p st).2.1 0,
             Call.lt8491_configure_telemetry (bringup_init env p st).2.1 p,
             Call.lt8491_remove (bringup_init env p st).2.1, Call.no_os_free ptr] ∧
          (lt8491_iio_init env iio_device iio_init_param st).calls.countP Call.isFree = 1 ∧
          (lt8491_iio_init env iio_device iio_init_param st).calls.countP Call.isRemove = 1 ∧
          (lt8491_iio_init env iio_device iio_init_param st).st = env.no_os_free ptr
            (env.lt8491_remove (bringup_init env p st).2.1 (bringup_telemetry env p st).2).2) ∧
        ((bringup_init env p st).1 = 0 → (bringup_restart env p st).1 = 0 →
          (bringup_disable env p st).1 = 0 → (bringup_telemetry env p st).1 = 0 →
          (lt8491_iio_init env iio_device iio_init_param st).ret = 0))) := by
  rcases iio_init_param with _ | ⟨⟨_ | p⟩⟩
  · simp [lt8491_iio_init, EINVAL]
  · simp [lt8491_iio_init, EINVAL]
  · cases hcal : (env.no_os_calloc st).1 with
    | none => simp [lt8491_iio_init, hcal, ENOMEM]
    | some ptr =>
      by_cases h1 : (env.lt8491_init p (env.no_os_calloc st).2).1 = 0
      · by_cases h2 : (env.lt8491_restart_chip (env.lt8491_init p (env.no_os_calloc st).2).2.1
            (env.lt8491_init p (env.no_os_calloc st).2).2.2).1 = 0
        · by_cases h3 : (env.lt8491_write_enable (env.lt8491_init p (env.no_os_calloc st).2).2.1 0
              (env.lt8491_restart_chip (env.lt8491_init p (env.no_os_calloc st).2).2.1
                (env.lt8491_init p (env.no_os_calloc st).2).2.2).2).1 = 0
          · by_cases h4 : (env.lt8491_configure_telemetry
                (env.lt8491_init p (env.no_os_calloc st).2).2.1 p
                (env.lt8491_write_enable (env.lt8491_init p (env.no_os_calloc st).2).2.1 0
                  (env.lt8491_restart_chip (env.lt8491_init p (env.no_os_calloc st).2).2.1
                    (env.lt8491_init p (env.no_os_calloc st).2).2.2).2).2).1 = 0
            · simp [lt8491_iio_init, free_dev, remove_dev, bringup_init, bringup_restart,
    bringup_disable, bringup_telemetry, Call.isFree, Call.isRemove, EINVAL, ENOMEM, hcal, h1, h2, h3, h4]
            · simp [lt8491_iio_init, free_dev, remove_dev, bringup_init, bringup_restart,
    bringup_disable, bringup_telemetry, Call.isFree, Call.isRemove, EINVAL, ENOMEM, hcal, h1, h2, h3, h4]
          · simp [lt8491_iio_init, free_dev, remove_dev, bringup_init, bringup_restart,
    bringup_disable, bringup_telemetry, Call.isFree, Call.isRemove, EINVAL, ENOMEM, hcal, h1, h2, h3]
        · simp [lt8491_iio_init, free_dev, remove_dev, bringup_init, bringup_restart,
    bringup_disable, bringup_telemetry, Call.isFree, Call.isRemove, EINVAL, ENOMEM, hcal, h1, h2]
      · simp [lt8491_iio_init, free_dev, remove_dev, bringup_init, bringup_restart,
    bringup_disable, bringup_telemetry, Call.isFree, Call.isRemove, EINVAL, ENOMEM, hcal, h1]

/-- On the fake chip whose telemetry configuration fails with -5, bring-up
returns -5, leaves the (empty) output location empty, and has called restart
and `write_enable(false)` once each, then remove and free (an instance of
`init_failure_atomic`). -/
theorem init_failure_atomic_witness :
    (lt8491_iio_init (fakeEnv cfgTelemetryFails) none (some ⟨some 9⟩) fakeSt).ret = -5 ∧
    (lt8491_iio_init (fakeEnv cfgTelemetryFails) none (some ⟨some 9⟩) fakeSt).iio_device = none ∧
    (lt8491_iio_init (fakeEnv cfgTelemetryFails) none (some ⟨some 9⟩) fakeSt).calls =
      [Call.no_os_calloc, Call.lt8491_init 9, Call.lt8491_restart_chip 5,
       Call.lt8491_write_enable 5 0, Call.lt8491_configure_telemetry 5 9,
       Call.lt8491_remove 5, Call.no_os_free 64] :=
  have h := ((init_failure_atomic (fakeEnv cfgTelemetryFails) none (some ⟨some 9⟩)
    fakeSt).2.2 9 rfl).2 64 rfl
  have h4 := h.2.2.2.1 rfl rfl rfl (by decide)
  ⟨h4.1, h4.2.2.1, h4.2.2.2.1⟩

/-- C4: a successful `lt8491_iio_init` (result 0) was given non-null parameters
`p`, and its calls to the chip driver are exactly `lt8491_init(p)`,
`lt8491_restart_chip`, `lt8491_write_enable(false)`,
`lt8491_configure_telemetry(p)`, in this order, each once, all but the first on
the descriptor the first delivered. On every run, successful or not, each
`lt8491_write_enable` call the routine makes carries the value 0. -/
theorem init_success_sequence (env : Env σ P D)
    (iio_device : Option (Nat × lt8491_iio_device D))
    (iio_init_param : Option (lt8491_iio_init_param P)) (st : σ) :
    ((lt8491_iio_init env iio_device iio_init_param st).ret = 0 →
      ∃ p : P, iio_init_param = some ⟨some p⟩ ∧
        (lt8491_iio_init env iio_device iio_init_param st).calls = [Call.no_os_calloc, Call.lt8491_init p,
          Call.lt8491_restart_chip (bringup_init env p st).2.1, Call.lt8491_write_enable (bringup_init env p st).2.1 0,
          Call.lt8491_configure_telemetry (bringup_init env p st).2.1 p] ∧
        chipCalls (lt8491_iio_init env iio_device iio_init_param st).calls = [Call.lt8491_init p,
          Call.lt8491_restart_chip (bringup_init env p st).2.1, Call.lt8491_write_enable (bringup_init env p st).2.1 0,
          Call.lt8491_configure_telemetry (bringup_init env p st).2.1 p]) ∧
    (∀ (dev : D) (val : Nat),
      Call.lt8491_write_enable dev val ∈ (lt8491_iio_init env iio_device iio_init_param st).calls → val = 0) := by
  rcases iio_init_param with _ | ⟨⟨_ | p⟩⟩
  · simp [lt8491_iio_init, EINVAL]
  · simp [lt8491_iio_init, EINVAL]
  · cases hcal : (env.no_os_calloc st).1 with
    | none => simp [lt8491_iio_init, hcal, ENOMEM]
    | some ptr =>
      by_cases h1 : (env.lt8491_init p (env.no_os_calloc st).2).1 = 0
      · by_cases h2 : (env.lt8491_restart_chip (env.lt8491_init p (env.no_os_calloc st).2).2.1
            (env.lt8491_init p (env.no_os_calloc st).2).2.2).1 = 0
        · by_cases h3 : (env.lt8491_write_enable (env.lt8491_init p (env.no_os_calloc st).2).2.1 0
              (env.lt8491_restart_chip (env.lt8491_init p (env.no_os_calloc st).2).2.1
                (env.lt8491_init p (env.no_os_calloc st).2).2.2).2).1 = 0
          · by_cases h4 : (env.lt8491_configure_telemetry
                (env.lt8491_init p (env.no_os_calloc st).2).2.1 p
                (env.lt8491_write_enable (env.lt8491_init p (env.no_os_calloc st).2).2.1 0
                  (env.lt8491_restart_chip (env.lt8491_init p (env.no_os_calloc st).2).2.1
                    (env.lt8491_init p (env.no_os_calloc st).2).2.2).2).2).1 = 0
            · simp [lt8491_iio_init, bringup_init, chipCalls, Call.isChip, hcal, h1, h2, h3, h4]
            · simp [lt8491_iio_init, free_dev, remove_dev, bringup_init, hcal, h1, h2, h3, h4]
          · simp [lt8491_iio_init, free_dev, remove_dev, bringup_init, hcal, h1, h2, h3]
        · simp [lt8491_iio_init, free_dev, remove_dev, bringup_init, hcal, h1, h2]
      · simp [lt8491_iio_init, free_dev, remove_dev, bringup_init, hcal, h1]

/-- On the fake chip where every step succeeds, bring-up returns 0, publishes
the handle, and its chip calls are init, restart, `write_enable(false)`,
telemetry, in this order (an instance of `init_success_sequence`). -/
theorem init_success_sequence_witness :
    (lt8491_iio_init (fakeEnv okCfg) none (some ⟨some 9⟩) fakeSt).iio_device
      = some (64, fakeDev) ∧
    chipCalls (lt8491_iio_init (fakeEnv okCfg) none (some ⟨some 9⟩) fakeSt).calls =
      [Call.lt8491_init 9, Call.lt8491_restart_chip 5,
       Call.lt8491_write_enable 5 0, Call.lt8491_configure_telemetry 5 9] := by
  obtain ⟨p, hp, _, hc⟩ :=
    (init_success_sequence (fakeEnv okCfg) none (some ⟨some 9⟩) fakeSt).1 (by decide)
  refine ⟨by decide, ?_⟩
  have h9 : p = 9 := by
    simp only [Option.some.injEq, lt8491_iio_init_param.mk.injEq] at hp
    exact hp.symm
  subst h9
  exact hc

/-! ## Show: the error path -/

/-- C5: for each of the thirteen readable ids (Temperature, OutputPower,
InputPower, Efficiency, OutputCurrent, InputCurrent, BatteryVoltage,
InputVoltage, ChargingStage, ChargingStatus, Enable, Scratch, SerialId), when
the read accessor bound to the id returns a nonzero code, the show handler
returns exactly that code, its only external call is that one read accessor
(no formatter call, no write or restart accessor), and the buffer is left as it
was. -/
theorem show_propagates_chip_error (env : Env σ P D) (ddev : lt8491_iio_device D)
    (buf : String) (len : Nat) (st : σ) :
    ((env.lt8491_read_tbat ddev.dev st).1 ≠ 0 →
      (lt8491_ch_attr_show env ddev buf len LT8491_TBAT.toInt st).ret
        = (env.lt8491_read_tbat ddev.dev st).1 ∧
      (lt8491_ch_attr_show env ddev buf len LT8491_TBAT.toInt st).calls
        = [Call.lt8491_read_tbat ddev.dev] ∧
      (lt8491_ch_attr_show env ddev buf len LT8491_TBAT.toInt st).buf = buf) ∧
    ((env.lt8491_read_pout ddev.dev st).1 ≠ 0 →
      (lt8491_ch_attr_show env ddev buf len LT8491_POUT.toInt st).ret
        = (env.lt8491_read_pout ddev.dev st).1 ∧
      (lt8491_ch_attr_show env ddev buf len LT8491_POUT.toInt st).calls
        = [Call.lt8491_read_pout ddev.dev] ∧
      (lt8491_ch_attr_show env ddev buf len LT8491_POUT.toInt st).buf = buf) ∧
    ((env.lt8491_read_pin ddev.dev st).1 ≠ 0 →
      (lt8491_ch_attr_show env ddev buf len LT8491_PIN.toInt st).ret
        = (env.lt8491_read_pin ddev.dev st).1 ∧
      (lt8491_ch_attr_show env ddev buf len LT8491_PIN.toInt st).calls
        = [Call.lt8491_read_pin ddev.dev] ∧
      (lt8491_ch_attr_show env ddev buf len LT8491_PIN.toInt st).buf = buf) ∧
    ((env.lt8491_read_efficiency ddev.dev st).1 ≠ 0 →
      (lt8491_ch_attr_show env ddev buf len LT8491_EFF.toInt st).ret
        = (env.lt8491_read_efficiency ddev.dev st).1 ∧
      (lt8491_ch_attr_show env ddev buf len LT8491_EFF.toInt st).calls
        = [Call.lt8491_read_efficiency ddev.dev] ∧
      (lt8491_ch_attr_show env ddev buf len LT8491_EFF.toInt st).buf = buf) ∧
    ((env.lt8491_read_iout ddev.dev st).1 ≠ 0 →
      (lt8491_ch_attr_show env ddev buf len LT8491_IOUT.toInt st).ret
        = (env.lt8491_read_iout ddev.dev st).1 ∧
      (lt8491_ch_attr_show env ddev buf len LT8491_IOUT.toInt st).calls
        = [Call.lt8491_read_iout ddev.dev] ∧
      (lt8491_ch_attr_show env ddev buf len LT8491_IOUT.toInt st).buf = buf) ∧
    ((env.lt8491_read_iin ddev.dev st).1 ≠ 0 →
      (lt8491_ch_attr_show env ddev buf len LT8491_IIN.toInt st).ret
        = (env.lt8491_read_iin ddev.dev st).1 ∧
      (lt8491_ch_attr_show env ddev buf len LT8491_IIN.toInt st).calls
        = [Call.lt8491_read_iin ddev.dev] ∧
      (lt8491_ch_attr_show env ddev buf len LT8491_IIN.toInt st).buf = buf) ∧
    ((env.lt8491_read_vbat ddev.dev st).1 ≠ 0 →
      (lt8491_ch_attr_show env ddev buf len LT8491_VBAT.toInt st).ret
        = (env.lt8491_read_vbat ddev.dev st).1 ∧
      (lt8491_ch_attr_show env ddev buf len LT8491_VBAT.toInt st).calls
        = [Call.lt8491_read_vbat ddev.dev] ∧
      (lt8491_ch_attr_show env ddev buf len LT8491_VBAT.toInt st).buf = buf) ∧
    ((env.lt8491_read_vin ddev.dev st).1 ≠ 0 →
      (lt8491_ch_attr_show env ddev buf len LT8491_VIN.toInt st).ret
        = (env.lt8491_read_vin ddev.dev st).1 ∧
      (lt8491_ch_attr_show env ddev buf len LT8491_VIN.toInt st).calls
        = [Call.lt8491_read_vin ddev.dev] ∧
      (lt8491_ch_attr_show env ddev buf len LT8491_VIN.toInt st).buf = buf) ∧
    ((env.lt8491_read_charging_stage ddev.dev st).1 ≠ 0 →
      (lt8491_ch_attr_show env ddev buf len LT8491_CHARGING_STAGE.toInt st).ret
        = (env.lt8491_read_charging_stage ddev.dev st).1 ∧
      (lt8491_ch_attr_show env ddev buf len LT8491_CHARGING_STAGE.toInt st).calls
        = [Call.lt8491_read_charging_stage ddev.dev] ∧
      (lt8491_ch_attr_show env ddev buf len LT8491_CHARGING_STAGE.toInt st).buf = buf) ∧
    ((env.lt8491_read_charging_status ddev.dev st).1 ≠ 0 →
      (lt8491_ch_attr_show env ddev buf len LT8491_CHARGING_STATUS.toInt st).ret
        = (env.lt8491_read_charging_status ddev.dev st).1 ∧
      (lt8491_ch_attr_show env ddev buf len LT8491_CHARGING_STATUS.toInt st).calls
        = [Call.lt8491_read_charging_status ddev.dev] ∧
      (lt8491_ch_attr_show env ddev buf len LT8491_CHARGING_STATUS.toInt st).buf = buf) ∧
    ((env.lt8491_read_enable ddev.dev st).1 ≠ 0 →
      (lt8491_ch_attr_show env ddev buf len LT8491_ENABLE.toInt st).ret
        = (env.lt8491_read_enable ddev.dev st).1 ∧
      (lt8491_ch_attr_show env ddev buf len LT8491_ENABLE.toInt st).calls
        = [Call.lt8491_read_enable ddev.dev] ∧
      (lt8491_ch_attr_show env ddev buf len LT8491_ENABLE.toInt st).buf = buf) ∧
    ((env.lt8491_read_scratch ddev.dev st).1 ≠ 0 →
      (lt8491_ch_attr_show env ddev buf len LT8491_SCRATCH.toInt st).ret
        = (env.lt8491_read_scratch ddev.dev st).1 ∧
      (lt8491_ch_attr_show env ddev buf len LT8491_SCRATCH.toInt st).calls
        = [Call.lt8491_read_scratch ddev.dev] ∧
      (lt8491_ch_attr_show env ddev buf len LT8491_SCRATCH.toInt st).buf = buf) ∧
    ((env.lt8491_read_serial_id ddev.dev st).1 ≠ 0 →
      (lt8491_ch_attr_show env ddev buf len LT8491_SERIAL_ID.toInt st).ret
        = (env.lt8491_read_serial_id ddev.dev st).1 ∧
      (lt8491_ch_attr_show env ddev buf len LT8491_SERIAL_ID.toInt st).calls
        = [Call.lt8491_read_serial_id ddev.dev] ∧
      (lt8491_ch_attr_show env ddev buf len LT8491_SERIAL_ID.toInt st).buf = buf) := by
  refine ⟨?_, ?_, ?_, ?_, ?_, ?_, ?_, ?_, ?_, ?_, ?_, ?_, ?_⟩ <;> intro h <;>
    simp [lt8491_ch_attr_show, ofInt_toInt, h]

/-- On the fake chip whose read accessors fail with -5, show of the battery
voltage returns -5 after the single call `lt8491_read_vbat` (an instance of
`show_propagates_chip_error`). -/
theorem show_propagates_chip_error_witness :
    (lt8491_ch_attr_show (fakeEnv cfgReadFails) fakeDev "" 16 LT8491_VBAT.toInt fakeSt).ret = -5 ∧
    (lt8491_ch_attr_show (fakeEnv cfgReadFails) fakeDev "" 16 LT8491_VBAT.toInt fakeSt).calls = [Call.lt8491_read_vbat 5] ∧
    (lt8491_ch_attr_show (fakeEnv cfgReadFails) fakeDev "" 16 LT8491_VBAT.toInt fakeSt).buf = "" :=
  (show_propagates_chip_error (fakeEnv cfgReadFails) fakeDev "" 16 fakeSt).2.2.2.2.2.2.1
    (by decide)

/-! ## The attribute table against the dispatch -/

theorem ofInt_out_of_range (priv : Int) (h : priv < 0 ∨ 13 < priv) :
    lt8491_attr_priv.ofInt priv = none := by
  unfold lt8491_attr_priv.ofInt
  repeat (first | rw [if_neg (by omega)] | rfl)

/-- C6: for each of the 14 descriptors `d` of `lt8491_iio_attrs`, the direction
the table declares is the one the handlers implement. With a `NULL` store
pointer (read-only), store on `d.priv` returns `-EOPNOTSUPP` with no call at
all (no parse, no chip accessor); with a store pointer (RW or WO), store on an
input that parses to 1 calls exactly one chip accessor, not a read accessor.
With a `NULL` show pointer (write-only), show on `d.priv` returns `-EOPNOTSUPP`
with no call at all; with a show pointer (RO or RW), show calls exactly one chip
accessor, a read accessor. The descriptors with a store pointer are "enable",
"reset", "scratch"; the only one without a show pointer is "reset". An id
outside the enumeration gives `-EOPNOTSUPP` with no call, from both handlers. -/
theorem direction_matches_dispatch (env : Env σ P D) (ddev : lt8491_iio_device D)
    (buf : String) (len : Nat) (st : σ) (d : iio_attribute)
    (hd : d ∈ lt8491_iio_attrs) :
    (d.store = none → (lt8491_ch_attr_store env ddev buf len d.priv st) = ⟨-EOPNOTSUPP, buf, st, []⟩) ∧
    (d.store ≠ none → env.iio_parse_value buf iio_val.IIO_VAL_INT = (0, 1) →
      ∃ c, chipCalls (lt8491_ch_attr_store env ddev buf len d.priv st).calls = [c] ∧ c.isRead = false) ∧
    (d.show_ = none → (lt8491_ch_attr_show env ddev buf len d.priv st) = ⟨-EOPNOTSUPP, buf, st, []⟩) ∧
    (d.show_ ≠ none →
      ∃ c, chipCalls (lt8491_ch_attr_show env ddev buf len d.priv st).calls = [c] ∧ c.isRead = true) ∧
    (lt8491_iio_attrs.filter (fun a => a.store.isSome)).map (fun a => a.name)
      = ["enable", "reset", "scratch"] ∧
    (lt8491_iio_attrs.filter (fun a => a.show_.isNone)).map (fun a => a.name)
      = ["reset"] ∧
    (∀ priv : Int, (priv < 0 ∨ 13 < priv) →
      lt8491_ch_attr_show env ddev buf len priv st = ⟨-EOPNOTSUPP, buf, st, []⟩ ∧
      lt8491_ch_attr_store env ddev buf len priv st = ⟨-EOPNOTSUPP, buf, st, []⟩) := by
  have hsh1 : (1 : Int) >>> (1 : Nat) = 0 := by decide
  have h1 : to_int32 1 = 1 := by decide
  have hu1 : to_uint32 1 = 1 := by decide
  refine ⟨?_, ?_, ?_, ?_, by decide, by decide, ?_⟩
  · intro hs
    simp only [lt8491_iio_attrs, LT8491_IIO_CH_ATTR_RO, LT8491_IIO_CH_ATTR_RW,
      LT8491_IIO_CH_ATTR_WO, List.mem_cons, List.mem_singleton, List.not_mem_nil,
      or_false] at hd
    rcases hd with h | h | h | h | h | h | h | h | h | h | h | h | h | h <;> subst h <;>
      first
      | exact absurd hs (Option.some_ne_none _)
      | simp [lt8491_ch_attr_store, ofInt_toInt]
  · intro hs hparse
    simp only [lt8491_iio_attrs, LT8491_IIO_CH_ATTR_RO, LT8491_IIO_CH_ATTR_RW,
      LT8491_IIO_CH_ATTR_WO, List.mem_cons, List.mem_singleton, List.not_mem_nil,
      or_false] at hd
    rcases hd with h | h | h | h | h | h | h | h | h | h | h | h | h | h <;> subst h <;>
      first
      | exact absurd rfl hs
      | (simp only [lt8491_ch_attr_store, ofInt_toInt, hparse, h1, hsh1, hu1, ne_eq,
           not_true_eq_false, one_ne_zero, not_false_eq_true, if_true, if_false]
         split_ifs <;> simp [chipCalls, Call.isChip, Call.isRead])
  · intro hs
    simp only [lt8491_iio_attrs, LT8491_IIO_CH_ATTR_RO, LT8491_IIO_CH_ATTR_RW,
      LT8491_IIO_CH_ATTR_WO, List.mem_cons, List.mem_singleton, List.not_mem_nil,
      or_false] at hd
    rcases hd with h | h | h | h | h | h | h | h | h | h | h | h | h | h <;> subst h <;>
      first
      | exact absurd hs (Option.some_ne_none _)
      | simp [lt8491_ch_attr_show, ofInt_toInt]
  · intro hs
    simp only [lt8491_iio_attrs, LT8491_IIO_CH_ATTR_RO, LT8491_IIO_CH_ATTR_RW,
      LT8491_IIO_CH_ATTR_WO, List.mem_cons, List.mem_singleton, List.not_mem_nil,
      or_false] at hd
    rcases hd with h | h | h | h | h | h | h | h | h | h | h | h | h | h <;> subst h <;>
      first
      | exact absurd rfl hs
      | (simp only [lt8491_ch_attr_show, ofInt_toInt]
         split_ifs <;> simp [chipCalls, Call.isChip, Call.isRead])
  · intro priv hp
    simp [lt8491_ch_attr_show, lt8491_ch_attr_store, ofInt_out_of_range priv hp]

/-- The store of "5" to the read-only "tbat" on the fake chip returns
`-EOPNOTSUPP` with no call at all (an instance of `direction_matches_dispatch`). -/
theorem direction_matches_dispatch_witness :
    lt8491_ch_attr_store (fakeEnv okCfg) fakeDev "5" 1 LT8491_TBAT.toInt fakeSt
      = ⟨-EOPNOTSUPP, "5", fakeSt, []⟩ :=
  (direction_matches_dispatch (fakeEnv okCfg) fakeDev "5" 1 fakeSt
    (LT8491_IIO_CH_ATTR_RO "tbat" LT8491_TBAT) (by simp [lt8491_iio_attrs])).1 rfl

/-! ## The three failure kinds -/

/-- C7, as stated, fails: a chip-level failure is not always told apart from the
other two kinds by the returned code. On the fake chip whose read accessor fails
with -22, show of "tbat" calls the accessor and returns -22, the very code
(`-EINVAL`) that the store of "2" to Enable returns for the domain violation
without touching the chip; and when the accessor fails with -95, show returns
the code (`-EOPNOTSUPP`) that show of the write-only "reset" returns. -/
theorem chip_failure_code_collides :
    (lt8491_ch_attr_show (fakeEnv cfgReadEINVAL) fakeDev "" 16 LT8491_TBAT.toInt fakeSt).calls
      = [Call.lt8491_read_tbat 5] ∧
    (lt8491_ch_attr_store (fakeEnv cfgParse2) fakeDev "2" 1 LT8491_ENABLE.toInt fakeSt).calls
      = [Call.iio_parse_value "2" iio_val.IIO_VAL_INT] ∧
    (lt8491_ch_attr_show (fakeEnv cfgReadEINVAL) fakeDev "" 16 LT8491_TBAT.toInt fakeSt).ret
      = (lt8491_ch_attr_store (fakeEnv cfgParse2) fakeDev "2" 1 LT8491_ENABLE.toInt fakeSt).ret ∧
    (lt8491_ch_attr_show (fakeEnv cfgReadEINVAL) fakeDev "" 16 LT8491_TBAT.toInt fakeSt).ret
      = -EINVAL ∧
    (lt8491_ch_attr_show (fakeEnv cfgReadEOPNOTSUPP) fakeDev "" 16 LT8491_TBAT.toInt fakeSt).calls
      = [Call.lt8491_read_tbat 5] ∧
    (lt8491_ch_attr_show (fakeEnv okCfg) fakeDev "" 16 LT8491_RESTART.toInt fakeSt).calls
      = [] ∧
    (lt8491_ch_attr_show (fakeEnv cfgReadEOPNOTSUPP) fakeDev "" 16 LT8491_TBAT.toInt fakeSt).ret
      = (lt8491_ch_attr_show (fakeEnv okCfg) fakeDev "" 16 LT8491_RESTART.toInt fakeSt).ret ∧
    (lt8491_ch_attr_show (fakeEnv cfgReadEOPNOTSUPP) fakeDev "" 16 LT8491_TBAT.toInt fakeSt).ret
      = -EOPNOTSUPP := by
  decide

/-- C7, amended: the code for an unsupported (id, direction) combination is
always `-EOPNOTSUPP`, the code for a domain violation on write is always
`-EINVAL`, and these two differ. A chip-level failure is reported with the
chip's own nonzero code `e`, unchanged, by show and by store alike; so it is
told apart from the other two kinds whenever `e` is itself neither `-EINVAL`
nor `-EOPNOTSUPP`. -/
theorem error_kinds_distinct_unless_chip_reuses (env : Env σ P D)
    (ddev : lt8491_iio_device D) (buf : String) (len : Nat) (st : σ) (e : Int)
    (he : e ≠ 0) (hinv : e ≠ -EINVAL) (hsup : e ≠ -EOPNOTSUPP) :
    -EOPNOTSUPP ≠ -EINVAL ∧
    (∀ p : lt8491_attr_priv, write_result env ddev.dev 0 st p = none →
      (lt8491_ch_attr_store env ddev buf len p.toInt st).ret = -EOPNOTSUPP) ∧
    (∀ p : lt8491_attr_priv, read_result env ddev.dev st p = none →
      (lt8491_ch_attr_show env ddev buf len p.toInt st).ret = -EOPNOTSUPP) ∧
    (∀ v : Int, -2 ^ 31 ≤ v → v < 2 ^ 31 →
      env.iio_parse_value buf iio_val.IIO_VAL_INT = (0, v) → v ≠ 0 → v ≠ 1 →
      (lt8491_ch_attr_store env ddev buf len LT8491_ENABLE.toInt st).ret = -EINVAL ∧
      (lt8491_ch_attr_store env ddev buf len LT8491_RESTART.toInt st).ret = -EINVAL) ∧
    (∀ p : lt8491_attr_priv, read_result env ddev.dev st p = some e →
      (lt8491_ch_attr_show env ddev buf len p.toInt st).ret = e ∧
      (lt8491_ch_attr_show env ddev buf len p.toInt st).ret ≠ -EINVAL ∧
      (lt8491_ch_attr_show env ddev buf len p.toInt st).ret ≠ -EOPNOTSUPP) ∧
    (∀ (p : lt8491_attr_priv) (v : Int), -2 ^ 31 ≤ v → v < 2 ^ 31 →
      env.iio_parse_value buf iio_val.IIO_VAL_INT = (0, v) →
      (p = LT8491_SCRATCH ∨ (p = LT8491_ENABLE ∧ (v = 0 ∨ v = 1)) ∨
        (p = LT8491_RESTART ∧ v = 1)) →
      write_result env ddev.dev (to_uint32 v) st p = some e →
      (lt8491_ch_attr_store env ddev buf len p.toInt st).ret = e ∧
      (lt8491_ch_attr_store env ddev buf len p.toInt st).ret ≠ -EINVAL ∧
      (lt8491_ch_attr_store env ddev buf len p.toInt st).ret ≠ -EOPNOTSUPP) := by
  refine ⟨by decide, ?_, ?_, ?_, ?_, ?_⟩
  · intro p hp
    cases p <;> first
      | exact absurd hp (Option.some_ne_none _)
      | simp [lt8491_ch_attr_store, ofInt_toInt]
  · intro p hp
    cases p <;> first
      | exact absurd hp (Option.some_ne_none _)
      | simp [lt8491_ch_attr_show, ofInt_toInt]
  · intro v hlo hhi hparse h0 h1
    have hv := to_int32_of_range v hlo hhi
    have hsh : v >>> (1 : Nat) ≠ 0 := (shift_ne_zero_iff v).2 ⟨h0, h1⟩
    simp [lt8491_ch_attr_store, ofInt_toInt, hparse, hv, hsh]
  · intro p hp
    have hret : (lt8491_ch_attr_show env ddev buf len p.toInt st).ret = e := by
      cases p <;> simp only [read_result, Option.some.injEq, reduceCtorEq] at hp <;>
        simp [lt8491_ch_attr_show, ofInt_toInt, hp, he]
    exact ⟨hret, by rw [hret]; exact hinv, by rw [hret]; exact hsup⟩
  · intro p v hlo hhi hparse hdom hp
    have hv := to_int32_of_range v hlo hhi
    have hret : (lt8491_ch_attr_store env ddev buf len p.toInt st).ret = e := by
      rcases hdom with rfl | ⟨rfl, h01⟩ | ⟨rfl, rfl⟩
      · simp only [write_result, Option.some.injEq] at hp
        simp [lt8491_ch_attr_store, ofInt_toInt, hparse, hv, hp, he]
      · have hsh : v >>> (1 : Nat) = 0 := by
          by_contra hc
          have := (shift_ne_zero_iff v).1 hc
          omega
        simp only [write_result, Option.some.injEq] at hp
        simp [lt8491_ch_attr_store, ofInt_toInt, hparse, hv, hsh, hp, he]
      · have hsh : (1 : Int) >>> (1 : Nat) = 0 := by decide
        simp only [write_result, Option.some.injEq] at hp
        simp [lt8491_ch_attr_store, ofInt_toInt, hparse, hv, hsh, hp, he]
    exact ⟨hret, by rw [hret]; exact hinv, by rw [hret]; exact hsup⟩

/-- On the fake chip whose read accessors fail with -5, show of the battery
voltage returns -5, which is neither `-EINVAL` nor `-EOPNOTSUPP` (an instance of
`error_kinds_distinct_unless_chip_reuses`). -/
theorem error_kinds_distinct_unless_chip_reuses_witness :
    (lt8491_ch_attr_show (fakeEnv cfgReadFails) fakeDev "" 16 LT8491_VBAT.toInt fakeSt).ret
      = -5 ∧
    (lt8491_ch_attr_show (fakeEnv cfgReadFails) fakeDev "" 16 LT8491_VBAT.toInt fakeSt).ret
      ≠ -EINVAL ∧
    (lt8491_ch_attr_show (fakeEnv cfgReadFails) fakeDev "" 16 LT8491_VBAT.toInt fakeSt).ret
      ≠ -EOPNOTSUPP :=
  (error_kinds_distinct_unless_chip_reuses (fakeEnv cfgReadFails) fakeDev "" 16 fakeSt (-5)
    (by decide) (by decide) (by decide)).2.2.2.2.1 LT8491_VBAT rfl

/-! ## The attribute table as a registry -/

/-- C8: the table `lt8491_iio_attrs` has exactly 14 descriptors, their names are
pairwise distinct, every value of `enum lt8491_attr_priv` is the `priv` of
exactly one descriptor and every descriptor's `priv` is a value of the enum.
So looking up the name of a descriptor of the table (first descriptor with that
name) returns that descriptor, whatever a lookup returns has the name asked for
and is in the table, and a name not in the table resolves to nothing. -/
theorem attrs_registry_bijection :
    lt8491_iio_attrs.length = 14 ∧
    (lt8491_iio_attrs.map (fun d => d.name)).Nodup ∧
    (∀ p : lt8491_attr_priv,
      lt8491_iio_attrs.countP (fun d => decide (d.priv = p.toInt)) = 1) ∧
    (∀ d ∈ lt8491_iio_attrs, ∃ p : lt8491_attr_priv, d.priv = p.toInt) ∧
    (∀ d ∈ lt8491_iio_attrs, resolve lt8491_iio_attrs d.name = some d) ∧
    (∀ (n : String) (d : iio_attribute), resolve lt8491_iio_attrs n = some d →
      d.name = n ∧ d ∈ lt8491_iio_attrs) ∧
    (∀ n : String, n ∉ lt8491_iio_attrs.map (fun d => d.name) →
      resolve lt8491_iio_attrs n = none) := by
  refine ⟨rfl, by decide, ?_, ?_, by decide, ?_, ?_⟩
  · intro p
    cases p <;> decide
  · intro d hd
    simp only [lt8491_iio_attrs, LT8491_IIO_CH_ATTR_RO, LT8491_IIO_CH_ATTR_RW,
      LT8491_IIO_CH_ATTR_WO, List.mem_cons, List.mem_singleton, List.not_mem_nil,
      or_false] at hd
    rcases hd with h | h | h | h | h | h | h | h | h | h | h | h | h | h <;> subst h <;>
      dsimp only <;> exact ⟨_, rfl⟩
  · intro n d h
    unfold resolve at h
    refine ⟨?_, List.mem_of_find?_eq_some h⟩
    have := List.find?_some h
    simpa using this
  · intro n hn
    unfold resolve
    rw [List.find?_eq_none]
    intro d hd hname
    apply hn
    rw [List.mem_map]
    exact ⟨d, hd, by simpa using hname⟩

/-- The registered name "serial_id" resolves to its descriptor, the name
"bogus_name" to nothing (an instance of `attrs_registry_bijection`). -/
theorem attrs_registry_bijection_witness :
    resolve lt8491_iio_attrs "serial_id"
      = some (LT8491_IIO_CH_ATTR_RO "serial_id" LT8491_SERIAL_ID) ∧
    resolve lt8491_iio_attrs "bogus_name" = none :=
  ⟨attrs_registry_bijection.2.2.2.2.1 (LT8491_IIO_CH_ATTR_RO "serial_id" LT8491_SERIAL_ID)
      (by simp [lt8491_iio_attrs]),
    attrs_registry_bijection.2.2.2.2.2.2 "bogus_name" (by decide)⟩

/-! ## Show: the values handed to the formatter -/

theorem to_int32_of_uint32 (u : Nat) (hu : u < 2 ^ 32) :
    to_int32 ((u % 2 ^ 32 : Nat) : Int) = if u < 2 ^ 31 then (u : Int) else (u : Int) - 2 ^ 32 := by
  unfold to_int32
  split_ifs <;> omega

/-- C9: for each of the seven unsigned telemetry ids (OutputPower, InputPower,
Efficiency, OutputCurrent, InputCurrent, BatteryVoltage, InputVoltage) and
every unsigned 32-bit value `u` its accessor delivers with result 0, the show
handler calls the accessor and then the formatter, once each; the one value it
hands to the formatter is the two's-complement wrap of `u` (`u` for
`u < 2^31`, `u - 2^32` otherwise); and what it returns and leaves in the buffer
is what the formatter gives back: no error arises from the size of `u`. -/
theorem show_unsigned_wraps (env : Env σ P D) (ddev : lt8491_iio_device D)
    (buf : String) (len : Nat) (st : σ) (u : Nat) (hu : u < 2 ^ 32) :
    (∀ st1 : σ, env.lt8491_read_pout ddev.dev st = (0, u, st1) →
      (lt8491_ch_attr_show env ddev buf len LT8491_POUT.toInt st).calls
        = [Call.lt8491_read_pout ddev.dev,
           Call.iio_format_value len iio_val.IIO_VAL_INT 1 [(if u < 2 ^ 31 then (u : Int) else (u : Int) - 2 ^ 32)]] ∧
      (lt8491_ch_attr_show env ddev buf len LT8491_POUT.toInt st).ret
        = (env.iio_format_value len iio_val.IIO_VAL_INT 1 [(if u < 2 ^ 31 then (u : Int) else (u : Int) - 2 ^ 32)]).1 ∧
      (lt8491_ch_attr_show env ddev buf len LT8491_POUT.toInt st).buf
        = (env.iio_format_value len iio_val.IIO_VAL_INT 1 [(if u < 2 ^ 31 then (u : Int) else (u : Int) - 2 ^ 32)]).2) ∧
    (∀ st1 : σ, env.lt8491_read_pin ddev.dev st = (0, u, st1) →
      (lt8491_ch_attr_show env ddev buf len LT8491_PIN.toInt st).calls
        = [Call.lt8491_read_pin ddev.dev,
           Call.iio_format_value len iio_val.IIO_VAL_INT 1 [(if u < 2 ^ 31 then (u : Int) else (u : Int) - 2 ^ 32)]] ∧
      (lt8491_ch_attr_show env ddev buf len LT8491_PIN.toInt st).ret
        = (env.iio_format_value len iio_val.IIO_VAL_INT 1 [(if u < 2 ^ 31 then (u : Int) else (u : Int) - 2 ^ 32)]).1 ∧
      (lt8491_ch_attr_show env ddev buf len LT8491_PIN.toInt st).buf
        = (env.iio_format_value len iio_val.IIO_VAL_INT 1 [(if u < 2 ^ 31 then (u : Int) else (u : Int) - 2 ^ 32)]).2) ∧
    (∀ st1 : σ, env.lt8491_read_efficiency ddev.dev st = (0, u, st1) →
      (lt8491_ch_attr_show env ddev buf len LT8491_EFF.toInt st).calls
        = [Call.lt8491_read_efficiency ddev.dev,
           Call.iio_format_value len iio_val.IIO_VAL_INT 1 [(if u < 2 ^ 31 then (u : Int) else (u : Int) - 2 ^ 32)]] ∧
      (lt8491_ch_attr_show env ddev buf len LT8491_EFF.toInt st).ret
        = (env.iio_format_value len iio_val.IIO_VAL_INT 1 [(if u < 2 ^ 31 then (u : Int) else (u : Int) - 2 ^ 32)]).1 ∧
      (lt8491_ch_attr_show env ddev buf len LT8491_EFF.toInt st).buf
        = (env.iio_format_value len iio_val.IIO_VAL_INT 1 [(if u < 2 ^ 31 then (u : Int) else (u : Int) - 2 ^ 32)]).2) ∧
    (∀ st1 : σ, env.lt8491_read_iout ddev.dev st = (0, u, st1) →
      (lt8491_ch_attr_show env ddev buf len LT8491_IOUT.toInt st).calls
        = [Call.lt8491_read_iout ddev.dev,
           Call.iio_format_value len iio_val.IIO_VAL_INT 1 [(if u < 2 ^ 31 then (u : Int) else (u : Int) - 2 ^ 32)]] ∧
      (lt8491_ch_attr_show env ddev buf len LT8491_IOUT.toInt st).ret
        = (env.iio_format_value len iio_val.IIO_VAL_INT 1 [(if u < 2 ^ 31 then (u : Int) else (u : Int) - 2 ^ 32)]).1 ∧
      (lt8491_ch_attr_show env ddev buf len LT8491_IOUT.toInt st).buf
        = (env.iio_format_value len iio_val.IIO_VAL_INT 1 [(if u < 2 ^ 31 then (u : Int) else (u : Int) - 2 ^ 32)]).2) ∧
    (∀ st1 : σ, env.lt8491_read_iin ddev.dev st = (0, u, st1) →
      (lt8491_ch_attr_show env ddev buf len LT8491_IIN.toInt st).calls
        = [Call.lt8491_read_iin ddev.dev,
           Call.iio_format_value len iio_val.IIO_VAL_INT 1 [(if u < 2 ^ 31 then (u : Int) else (u : Int) - 2 ^ 32)]] ∧
      (lt8491_ch_attr_show env ddev buf len LT8491_IIN.toInt st).ret
        = (env.iio_format_value len iio_val.IIO_VAL_INT 1 [(if u < 2 ^ 31 then (u : Int) else (u : Int) - 2 ^ 32)]).1 ∧
      (lt8491_ch_attr_show env ddev buf len LT8491_IIN.toInt st).buf
        = (env.iio_format_value len iio_val.IIO_VAL_INT 1 [(if u < 2 ^ 31 then (u : Int) else (u : Int) - 2 ^ 32)]).2) ∧
    (∀ st1 : σ, env.lt8491_read_vbat ddev.dev st = (0, u, st1) →
      (lt8491_ch_attr_show env ddev buf len LT8491_VBAT.toInt st).calls
        = [Call.lt8491_read_vbat ddev.dev,
           Call.iio_format_value len iio_val.IIO_VAL_INT 1 [(if u < 2 ^ 31 then (u : Int) else (u : Int) - 2 ^ 32)]] ∧
      (lt8491_ch_attr_show env ddev buf len LT8491_VBAT.toInt st).ret
        = (env.iio_format_value len iio_val.IIO_VAL_INT 1 [(if u < 2 ^ 31 then (u : Int) else (u : Int) - 2 ^ 32)]).1 ∧
      (lt8491_ch_attr_show env ddev buf len LT8491_VBAT.toInt st).buf
        = (env.iio_format_value len iio_val.IIO_VAL_INT 1 [(if u < 2 ^ 31 then (u : Int) else (u : Int) - 2 ^ 32)]).2) ∧
    (∀ st1 : σ, env.lt8491_read_vin ddev.dev st = (0, u, st1) →
      (lt8491_ch_attr_show env ddev buf len LT8491_VIN.toInt st).calls
        = [Call.lt8491_read_vin ddev.dev,
           Call.iio_format_value len iio_val.IIO_VAL_INT 1 [(if u < 2 ^ 31 then (u : Int) else (u : Int) - 2 ^ 32)]] ∧
      (lt8491_ch_attr_show env ddev buf len LT8491_VIN.toInt st).ret
        = (env.iio_format_value len iio_val.IIO_VAL_INT 1 [(if u < 2 ^ 31 then (u : Int) else (u : Int) - 2 ^ 32)]).1 ∧
      (lt8491_ch_attr_show env ddev buf len LT8491_VIN.toInt st).buf
        = (env.iio_format_value len iio_val.IIO_VAL_INT 1 [(if u < 2 ^ 31 then (u : Int) else (u : Int) - 2 ^ 32)]).2) := by
  have hw := to_int32_of_uint32 u hu
  refine ⟨?_, ?_, ?_, ?_, ?_, ?_, ?_⟩ <;> intro st1 h <;>
    simp only [lt8491_ch_attr_show, ofInt_toInt, h, hw, ne_eq, not_true_eq_false, if_false,
      and_self]

/-- On the fake chip delivering `2^32 - 1`, show of the input voltage hands the
formatter the value -1 and returns the formatter's result (an instance of
`show_unsigned_wraps`). -/
theorem show_unsigned_wraps_witness :
    (lt8491_ch_attr_show (fakeEnv cfgUvalMax) fakeDev "" 16 LT8491_VIN.toInt fakeSt).calls
      = [Call.lt8491_read_vin 5, Call.iio_format_value 16 iio_val.IIO_VAL_INT 1 [-1]] ∧
    (lt8491_ch_attr_show (fakeEnv cfgUvalMax) fakeDev "" 16 LT8491_VIN.toInt fakeSt).ret = 2 :=
  have h := (show_unsigned_wraps (fakeEnv cfgUvalMax) fakeDev "" 16 fakeSt 4294967295
    (by decide)).2.2.2.2.2.2 fakeSt rfl
  ⟨h.1, h.2.1⟩

/-- C10, as stated, fails for a word of `2^31` or more: on the fake chip whose
serial id is (2147483648, 2, 3), show of SerialId hands the formatter the values
-2147483648, 2, 3 (the array is passed as `(int32_t *)uvals`), not the unsigned
words 2147483648, 2, 3. -/
theorem show_serial_id_word_seen_signed :
    (lt8491_ch_attr_show (fakeEnv cfgSerialBig) fakeDev "" 16 LT8491_SERIAL_ID.toInt fakeSt).calls
      = [Call.lt8491_read_serial_id 5,
         Call.iio_format_value 16 iio_val.IIO_VAL_INT_MULTIPLE 3 [-2147483648, 2, 3]] ∧
    (lt8491_ch_attr_show (fakeEnv cfgSerialBig) fakeDev "" 16 LT8491_SERIAL_ID.toInt fakeSt).calls
      ≠ [Call.lt8491_read_serial_id 5,
         Call.iio_format_value 16 iio_val.IIO_VAL_INT_MULTIPLE 3 [2147483648, 2, 3]] := by
  decide

/-- C10, amended: for every triple `(a, b, c)` of unsigned 32-bit words that
`lt8491_read_serial_id` delivers with result 0, show of SerialId calls the
accessor and then the formatter, once each, with `IIO_VAL_INT_MULTIPLE`, arity
3 and three values in array order, each the word seen as an `int32_t`: the word
itself when it is below `2^31`, the word minus `2^32` otherwise. It returns and
leaves in the buffer what the formatter gives back. When all three words are
below `2^31` the values are `a, b, c` themselves. -/
theorem show_serial_id_words (env : Env σ P D) (ddev : lt8491_iio_device D)
    (buf : String) (len : Nat) (st st1 : σ) (a b c : Nat)
    (ha : a < 2 ^ 32) (hb : b < 2 ^ 32) (hc : c < 2 ^ 32)
    (hread : env.lt8491_read_serial_id ddev.dev st = (0, (a, b, c), st1)) :
    (lt8491_ch_attr_show env ddev buf len LT8491_SERIAL_ID.toInt st).calls
      = [Call.lt8491_read_serial_id ddev.dev,
         Call.iio_format_value len iio_val.IIO_VAL_INT_MULTIPLE 3
           [(if a < 2 ^ 31 then (a : Int) else (a : Int) - 2 ^ 32),
             (if b < 2 ^ 31 then (b : Int) else (b : Int) - 2 ^ 32),
             (if c < 2 ^ 31 then (c : Int) else (c : Int) - 2 ^ 32)]] ∧
    (lt8491_ch_attr_show env ddev buf len LT8491_SERIAL_ID.toInt st).ret
      = (env.iio_format_value len iio_val.IIO_VAL_INT_MULTIPLE 3
           [(if a < 2 ^ 31 then (a : Int) else (a : Int) - 2 ^ 32),
             (if b < 2 ^ 31 then (b : Int) else (b : Int) - 2 ^ 32),
             (if c < 2 ^ 31 then (c : Int) else (c : Int) - 2 ^ 32)]).1 ∧
    (lt8491_ch_attr_show env ddev buf len LT8491_SERIAL_ID.toInt st).buf
      = (env.iio_format_value len iio_val.IIO_VAL_INT_MULTIPLE 3
           [(if a < 2 ^ 31 then (a : Int) else (a : Int) - 2 ^ 32),
             (if b < 2 ^ 31 then (b : Int) else (b : Int) - 2 ^ 32),
             (if c < 2 ^ 31 then (c : Int) else (c : Int) - 2 ^ 32)]).2 ∧
    (a < 2 ^ 31 → b < 2 ^ 31 → c < 2 ^ 31 →
      (lt8491_ch_attr_show env ddev buf len LT8491_SERIAL_ID.toInt st).calls
        = [Call.lt8491_read_serial_id ddev.dev,
           Call.iio_format_value len iio_val.IIO_VAL_INT_MULTIPLE 3 [(a : Int), b, c]]) := by
  have hwa := to_int32_of_uint32 a ha
  have hwb := to_int32_of_uint32 b hb
  have hwc := to_int32_of_uint32 c hc
  refine ⟨?_, ?_, ?_, ?_⟩
  · simp only [lt8491_ch_attr_show, ofInt_toInt, hread, hwa, hwb, hwc, ne_eq,
      not_true_eq_false, if_false, List.map, List.length]
  · simp only [lt8491_ch_attr_show, ofInt_toInt, hread, hwa, hwb, hwc, ne_eq,
      not_true_eq_false, if_false, List.map, List.length]
  · simp only [lt8491_ch_attr_show, ofInt_toInt, hread, hwa, hwb, hwc, ne_eq,
      not_true_eq_false, if_false, List.map, List.length]
  · intro la lb lc
    simp only [lt8491_ch_attr_show, ofInt_toInt, hread, hwa, hwb, hwc, ne_eq,
      not_true_eq_false, if_false, List.map, List.length, if_pos la, if_pos lb, if_pos lc]

/-- On the fake chip whose serial id is (1, 2, 3), show of SerialId hands the
formatter the three values 1, 2, 3 in this order (an instance of
`show_serial_id_words`). -/
theorem show_serial_id_words_witness :
    (lt8491_ch_attr_show (fakeEnv okCfg) fakeDev "" 16 LT8491_SERIAL_ID.toInt fakeSt).calls
      = [Call.lt8491_read_serial_id 5,
         Call.iio_format_value 16 iio_val.IIO_VAL_INT_MULTIPLE 3 [1, 2, 3]] :=
  (show_serial_id_words (fakeEnv okCfg) fakeDev "" 16 fakeSt fakeSt 1 2 3
    (by decide) (by decide) (by decide) rfl).2.2.2 (by decide) (by decide) (by decide)

/-! ## Store, then show -/

theorem to_int32_to_uint32 (v : Int) (h1 : -2 ^ 31 ≤ v) (h2 : v < 2 ^ 31) :
    to_int32 ((to_uint32 v % 2 ^ 32 : Nat) : Int) = v := by
  unfold to_int32 to_uint32
  omega

/-- C12: store, then show, on the read-write attributes, over a chip that
persists what is written: the write accessor, given the `uint32_t` conversion of
the parsed 32-bit signed `v`, succeeds and leaves a state in which the read
accessor succeeds and delivers that same word. Then the store takes the
`return len` exit, and the show that follows calls the read accessor and hands
the formatter the one signed value `v`, returning what the formatter gives
back: for Enable with `v` in (0, 1), and for Scratch with every 32-bit signed
`v` (the conversion to `uint32_t` on write and back to `int32_t` on read
compose to the identity). -/
theorem store_show_roundtrip (env : Env σ P D) (ddev : lt8491_iio_device D)
    (buf : String) (len : Nat) (buf2 : String) (len2 : Nat) (st st1 st2 : σ) (v : Int)
    (hlo : -2 ^ 31 ≤ v) (hhi : v < 2 ^ 31)
    (hparse : env.iio_parse_value buf iio_val.IIO_VAL_INT = (0, v)) :
    ((v = 0 ∨ v = 1) →
      env.lt8491_write_enable ddev.dev (to_uint32 v) st = (0, st1) →
      env.lt8491_read_enable ddev.dev st1 = (0, to_uint32 v, st2) →
      (lt8491_ch_attr_store env ddev buf len LT8491_ENABLE.toInt st).ret = to_int32 len ∧
      (lt8491_ch_attr_store env ddev buf len LT8491_ENABLE.toInt st).st = st1 ∧
      (lt8491_ch_attr_show env ddev buf2 len2 LT8491_ENABLE.toInt
          (lt8491_ch_attr_store env ddev buf len LT8491_ENABLE.toInt st).st).calls
        = [Call.lt8491_read_enable ddev.dev,
           Call.iio_format_value len2 iio_val.IIO_VAL_INT 1 [v]] ∧
      (lt8491_ch_attr_show env ddev buf2 len2 LT8491_ENABLE.toInt
          (lt8491_ch_attr_store env ddev buf len LT8491_ENABLE.toInt st).st).ret
        = (env.iio_format_value len2 iio_val.IIO_VAL_INT 1 [v]).1 ∧
      (lt8491_ch_attr_show env ddev buf2 len2 LT8491_ENABLE.toInt
          (lt8491_ch_attr_store env ddev buf len LT8491_ENABLE.toInt st).st).buf
        = (env.iio_format_value len2 iio_val.IIO_VAL_INT 1 [v]).2) ∧
    (env.lt8491_write_scratch ddev.dev (to_uint32 v) st = (0, st1) →
      env.lt8491_read_scratch ddev.dev st1 = (0, to_uint32 v, st2) →
      (lt8491_ch_attr_store env ddev buf len LT8491_SCRATCH.toInt st).ret = to_int32 len ∧
      (lt8491_ch_attr_store env ddev buf len LT8491_SCRATCH.toInt st).st = st1 ∧
      (lt8491_ch_attr_show env ddev buf2 len2 LT8491_SCRATCH.toInt
          (lt8491_ch_attr_store env ddev buf len LT8491_SCRATCH.toInt st).st).calls
        = [Call.lt8491_read_scratch ddev.dev,
           Call.iio_format_value len2 iio_val.IIO_VAL_INT 1 [v]] ∧
      (lt8491_ch_attr_show env ddev buf2 len2 LT8491_SCRATCH.toInt
          (lt8491_ch_attr_store env ddev buf len LT8491_SCRATCH.toInt st).st).ret
        = (env.iio_format_value len2 iio_val.IIO_VAL_INT 1 [v]).1 ∧
      (lt8491_ch_attr_show env ddev buf2 len2 LT8491_SCRATCH.toInt
          (lt8491_ch_attr_store env ddev buf len LT8491_SCRATCH.toInt st).st).buf
        = (env.iio_format_value len2 iio_val.IIO_VAL_INT 1 [v]).2) := by
  have hv := to_int32_of_range v hlo hhi
  have hrt := to_int32_to_uint32 v hlo hhi
  refine ⟨?_, ?_⟩
  · intro h01 hw hr
    have hsh : v >>> (1 : Nat) = 0 := by
      by_contra hc
      have := (shift_ne_zero_iff v).1 hc
      omega
    have hst : (lt8491_ch_attr_store env ddev buf len LT8491_ENABLE.toInt st).st = st1 := by
      simp [lt8491_ch_attr_store, ofInt_toInt, hparse, hv, hsh, hw]
    refine ⟨?_, hst, ?_, ?_, ?_⟩
    · simp [lt8491_ch_attr_store, ofInt_toInt, hparse, hv, hsh, hw]
    · rw [hst]
      simp only [lt8491_ch_attr_show, ofInt_toInt, hr, hrt, ne_eq, not_true_eq_false,
        if_false]
    · rw [hst]
      simp only [lt8491_ch_attr_show, ofInt_toInt, hr, hrt, ne_eq, not_true_eq_false,
        if_false]
    · rw [hst]
      simp only [lt8491_ch_attr_show, ofInt_toInt, hr, hrt, ne_eq, not_true_eq_false,
        if_false]
  · intro hw hr
    have hst : (lt8491_ch_attr_store env ddev buf len LT8491_SCRATCH.toInt st).st = st1 := by
      simp [lt8491_ch_attr_store, ofInt_toInt, hparse, hv, hw]
    refine ⟨?_, hst, ?_, ?_, ?_⟩
    · simp [lt8491_ch_attr_store, ofInt_toInt, hparse, hv, hw]
    · rw [hst]
      simp only [lt8491_ch_attr_show, ofInt_toInt, hr, hrt, ne_eq, not_true_eq_false,
        if_false]
    · rw [hst]
      simp only [lt8491_ch_attr_show, ofInt_toInt, hr, hrt, ne_eq, not_true_eq_false,
        if_false]
    · rw [hst]
      simp only [lt8491_ch_attr_show, ofInt_toInt, hr, hrt, ne_eq, not_true_eq_false,
        if_false]

/-- On the fake chip, which persists the scratch register, the store of "-7"
to Scratch followed by show of Scratch hands the formatter the value -7 (an
instance of `store_show_roundtrip`). -/
theorem store_show_roundtrip_witness :
    (lt8491_ch_attr_show (fakeEnv cfgParseNeg7) fakeDev "" 16 LT8491_SCRATCH.toInt
      (lt8491_ch_attr_store (fakeEnv cfgParseNeg7) fakeDev "-7" 2 LT8491_SCRATCH.toInt fakeSt).st).calls
      = [Call.lt8491_read_scratch 5,
         Call.iio_format_value 16 iio_val.IIO_VAL_INT 1 [-7]] :=
  ((store_show_roundtrip (fakeEnv cfgParseNeg7) fakeDev "-7" 2 "" 16 fakeSt
    ⟨0, 4294967289⟩ ⟨0, 4294967289⟩ (-7) (by decide) (by decide) rfl).2 rfl rfl).2.2.1

/-! ## The raw register channel -/

/-- C11 against the code: with the carrier holding 0xFFFF0000 before the call
and the chip's `lt8491_reg_read` storing the register value 0x1234 with result
0, `lt8491_iio_reg_read` returns 0 and leaves 0xFFFF1234 in the carrier on a
little-endian target (0x12340000 on a big-endian one), not the zero-extended
register value 0x1234: the 16-bit store through `(uint16_t*)readval` covers
half of the carrier only. -/
theorem reg_read_carrier_keeps_stale_half :
    (lt8491_iio_reg_read (fakeRegEnv 0) false fakeDev 3 4294901760 fakeSt).ret = 0 ∧
    (lt8491_iio_reg_read (fakeRegEnv 0) false fakeDev 3 4294901760 fakeSt).calls
      = [RegCall.lt8491_reg_read 5 3 false] ∧
    (lt8491_iio_reg_read (fakeRegEnv 0) false fakeDev 3 4294901760 fakeSt).readval
      = 4294906420 ∧
    (lt8491_iio_reg_read (fakeRegEnv 0) false fakeDev 3 4294901760 fakeSt).readval ≠ 4660 ∧
    (lt8491_iio_reg_read (fakeRegEnv 0) true fakeDev 3 4294901760 fakeSt).readval
      = 305397760 ∧
    (lt8491_iio_reg_read (fakeRegEnv 0) true fakeDev 3 4294901760 fakeSt).readval ≠ 4660 := by
  decide

/-- The parts of the raw register channel that hold for every chip: for an
address `a < 256`, `lt8491_iio_reg_read` calls the chip's `lt8491_reg_read`
once with `(a, false)` and returns its result unchanged, error or not; when the
chip stores the 16-bit `r`, the carrier afterwards holds `r` in one half and
its old contents in the other (on a little-endian target: `r` itself exactly
when the carrier's upper half was clear before the call); and for `v < 2^16`,
`lt8491_iio_reg_write` calls `lt8491_reg_write` once with exactly
`(a, v, false)` and returns its result and state unchanged. -/
theorem reg_channel_passthrough (renv : RegEnv σ D) (big_endian : Bool)
    (dev : lt8491_iio_device D) (st : σ) (a v r readval : Nat)
    (ha : a < 2 ^ 8) (hv : v < 2 ^ 16) (hr : r < 2 ^ 16) (hcell : readval < 2 ^ 32) :
    (lt8491_iio_reg_read renv big_endian dev a readval st).ret
      = (renv.lt8491_reg_read dev.dev a false st).1 ∧
    (lt8491_iio_reg_read renv big_endian dev a readval st).calls
      = [RegCall.lt8491_reg_read dev.dev a false] ∧
    (lt8491_iio_reg_read renv big_endian dev a readval st).st
      = (renv.lt8491_reg_read dev.dev a false st).2.2 ∧
    ((renv.lt8491_reg_read dev.dev a false st).2.1 = none →
      (lt8491_iio_reg_read renv big_endian dev a readval st).readval = readval) ∧
    ((renv.lt8491_reg_read dev.dev a false st).2.1 = some r →
      (lt8491_iio_reg_read renv false dev a readval st).readval
        = (readval / 2 ^ 16) * 2 ^ 16 + r ∧
      (lt8491_iio_reg_read renv true dev a readval st).readval
        = r * 2 ^ 16 + readval % 2 ^ 16 ∧
      ((lt8491_iio_reg_read renv false dev a readval st).readval = r ↔ readval < 2 ^ 16)) ∧
    (lt8491_iio_reg_write renv dev a v st).calls
      = [RegCall.lt8491_reg_write dev.dev a v false] ∧
    (lt8491_iio_reg_write renv dev a v st).ret
      = (renv.lt8491_reg_write dev.dev a v false st).1 ∧
    (lt8491_iio_reg_write renv dev a v st).st
      = (renv.lt8491_reg_write dev.dev a v false st).2 := by
  have ha8 : a % 2 ^ 8 = a := Nat.mod_eq_of_lt ha
  have hv16 : v % 2 ^ 16 = v := Nat.mod_eq_of_lt hv
  have hr16 : r % 2 ^ 16 = r := Nat.mod_eq_of_lt hr
  have hhi : readval / 2 ^ 16 % 2 ^ 16 = readval / 2 ^ 16 := by omega
  refine ⟨?_, ?_, ?_, ?_, ?_, ?_, ?_, ?_⟩
  · simp only [lt8491_iio_reg_read, ha8]
  · simp only [lt8491_iio_reg_read, ha8]
  · simp only [lt8491_iio_reg_read, ha8]
  · intro h
    simp only [lt8491_iio_reg_read, ha8, h]
  · intro h
    refine ⟨?_, ?_, ?_⟩
    · simp only [lt8491_iio_reg_read, ha8, h, store_uint16_at, hr16, hhi]
      simp
    · simp only [lt8491_iio_reg_read, ha8, h, store_uint16_at, hr16]
      simp
    · simp only [lt8491_iio_reg_read, ha8, h, store_uint16_at, hr16, hhi]
      simp only [Bool.false_eq_true, if_false]
      omega
  · simp only [lt8491_iio_reg_write, ha8, hv16]
  · simp only [lt8491_iio_reg_write, ha8, hv16]
  · simp only [lt8491_iio_reg_write, ha8, hv16]

/-- On the fake chip, a register read into a cleared carrier on a little-endian
target leaves the register value 0x1234 in it, and a register write of 0xBEEF
to address 3 passes exactly these to the chip (an instance of
`reg_channel_passthrough`). -/
theorem reg_channel_passthrough_witness :
    (lt8491_iio_reg_read (fakeRegEnv 0) false fakeDev 3 0 fakeSt).readval = 4660 ∧
    (lt8491_iio_reg_write (fakeRegEnv 0) fakeDev 3 48879 fakeSt).calls
      = [RegCall.lt8491_reg_write 5 3 48879 false] :=
  have h := reg_channel_passthrough (fakeRegEnv 0) false fakeDev fakeSt 3 48879 4660 0
    (by decide) (by decide) (by decide) (by decide)
  ⟨((h.2.2.2.2.1 rfl).2.2).2 (by decide), h.2.2.2.2.2.1⟩

end LT8491
